import Mathlib

/-!
# Powerbroker: observation protocol and reconciliation verdicts

A shallow embedding of `internal/storage/neo4j/neo4j.go` (the four Get
operations and the Create, Update and Delete operations of every entity kind),
of the transaction functions of `transaction.go` as the statement and the
parameter map they submit, of the error predicates of
`internal/storage/types/error.go` and of the `transaction` package, and of the
`Observe`, `Create`, `Update` and `Delete` methods of the four controllers
under `internal/controller/`.

Conventions of the embedding:

* a Go `error` value is an `Option GoError` (`none` is the nil error);
* a Go slice is an `Option (List α)`: `none` is the nil slice, `some []` is an
  empty, non-nil slice (go-cmp tells the two apart);
* a Go run-time panic is the `Except.error` side of `Except GoPanic`;
* the neo4j session is a value of type `Session`, i.e. any function from the
  transaction work it is handed to the pair the driver gives back; the write
  operations run on a `Store`, which also passes the state of the store along.
-/

namespace Powerbroker

/-! ## Go values and errors -/

/-- A Go run-time panic that the embedded code can raise. -/
inductive GoPanic where
  | indexOutOfRange
  | typeAssertion
  | nilDereference
  deriving DecidableEq, Repr

/-- A value held in a column of a `neo4j.Record` (a Go `interface{}`).
`other` stands for every dynamic type not listed (float, map, node, ...) and
carries the text `fmt.Sprint` prints for it. -/
inductive Value where
  | null
  | bool (b : Bool)
  | int (n : Int)
  | str (s : String)
  | list (vs : List Value)
  | other (rendering : String)
  deriving Repr

/-- The dynamic value of the `interface{}` returned by a transaction. -/
inductive Dyn where
  /-- the nil interface -/
  | nil
  /-- a non-nil `*neo4j.Record` with its `Values` -/
  | record (values : List Value)
  /-- a nil pointer of type `*neo4j.Record` boxed in the interface -/
  | nilRecord
  /-- any other dynamic type (for instance a result summary) -/
  | other
  deriving Repr

/-- The error values that flow through the storage layer and the controllers.
`storeEntityNotFound` and `storeInternal` are the types of
`internal/storage/types`; `txEntityNotFound` and `txInternal` are the
look-alikes of the `transaction` package; `neo4j` is `*db.Neo4jError`;
`plain` is any other error, known only by its message; `wrapped` is the
result of `errors.Wrap`. -/
inductive GoError where
  | storeEntityNotFound
  | storeInternal
  | txEntityNotFound (entity : String)
  | txInternal (message : String)
  | neo4j (code : String) (msg : String)
  | plain (msg : String)
  | wrapped (cause : GoError) (message : String)
  deriving DecidableEq, Repr

def entityNotFound : String := "requested object not found"
def internalError : String := "internal error occurred"

/-- The `Error()` method of each error type. -/
def GoError.Error : GoError → String
  | .storeEntityNotFound => entityNotFound
  | .storeInternal => internalError
  | .txEntityNotFound entity => "entity with uuid = " ++ entity ++ " not found"
  | .txInternal message => message
  | .neo4j code msg => "Neo4jError: " ++ code ++ " (" ++ msg ++ ")"
  | .plain msg => msg
  | .wrapped cause message => message ++ ": " ++ cause.Error

/-- `storetypes.IsEntityNotFoundNeo4jErr`: a type assertion to
`*storetypes.EntityNotFoundError`. -/
def IsEntityNotFoundNeo4jErr : Option GoError → Bool
  | some .storeEntityNotFound => true
  | _ => false

/-- `storetypes.IsInternalError`: a type assertion to
`*storetypes.InternalError`. -/
def IsInternalError : Option GoError → Bool
  | some .storeInternal => true
  | _ => false

/-- `errors.Wrap`: nil stays nil, anything else is annotated. -/
def errorsWrap (err : Option GoError) (message : String) : Option GoError :=
  match err with
  | none => none
  | some e => some (.wrapped e message)

/-- `resource.Ignore`: the error is dropped when the predicate accepts it. -/
def resourceIgnore (is : Option GoError → Bool) (err : Option GoError) : Option GoError :=
  if is err then none else err

/-- Whether `sub` occurs in `cs` at some position. -/
def containsChars (sub : List Char) : List Char → Bool
  | [] => sub.isEmpty
  | c :: cs => sub.isPrefixOf (c :: cs) || containsChars sub cs

/-- `strings.Contains`. -/
def stringsContains (s substr : String) : Bool :=
  containsChars substr.data s.data

mutual
/-- `fmt.Sprint` on a record value. -/
def Sprint : Value → String
  | .null => "<nil>"
  | .bool b => if b then "true" else "false"
  | .int n => toString n
  | .str s => s
  | .list vs => "[" ++ SprintElems vs ++ "]"
  | .other rendering => rendering
/-- The elements of a slice as `fmt.Sprint` prints them, blank-separated. -/
def SprintElems : List Value → String
  | [] => ""
  | [v] => Sprint v
  | v :: w :: vs => Sprint v ++ " " ++ SprintElems (w :: vs)
end

/-! ## The driver session and the read transactions -/

/-- How a transaction function ends: `result.Single()` or `result.Consume()`. -/
inductive Terminal where
  | single
  | consume
  deriving DecidableEq, Repr

/-- A `neo4j.TransactionWork` of `transaction.go`: one `tx.Run` of a statement
with its named parameters, followed by `Single` or `Consume`. -/
structure TransactionWork where
  statement : String
  params : List (String × Value)
  finish : Terminal

/-- The `neo4j.Session` a `Neo4jDB` opens: what `ReadTransaction` and
`WriteTransaction` return, as `(interface{}, error)`, for the work they run. -/
structure Session where
  ReadTransaction : TransactionWork → Dyn × Option GoError
  WriteTransaction : TransactionWork → Dyn × Option GoError

def GetUserTxFunc (userUuid : String) : TransactionWork :=
  { statement := "\n\t\tMATCH (:User \x7buuid: $userUuid\x7d)-->(p:Persona)\n\t\tRETURN collect(p.uuid) as personaRefs\n\t\t"
    params := [("userUuid", .str userUuid)]
    finish := .single }

def GetPersonaTxFunc (personaUuid : String) : TransactionWork :=
  { statement := "\n\t\tMATCH (:Persona \x7buuid: $personaUuid\x7d)<--(p:PermissionSet)\n\t\tRETURN collect(p.uuid) as permissionSetRefs\n\t\t"
    params := [("personaUuid", .str personaUuid)]
    finish := .single }

def GetPermissionSetTxFunc (uuid : String) : TransactionWork :=
  { statement := "\n\t\tMATCH (r:Role)<--(p:PermissionSet \x7buuid: $uuid\x7d)-->(ac:Account)\n\t\tRETURN \tac.id as id,\n\t\t\tac.alias as alias,\n\t\t\tac.class as class,\n\t\t\tr.name as roleName"
    params := [("uuid", .str uuid)]
    finish := .single }

def GetTeamTxFunc (teamUuid : String) : TransactionWork :=
  { statement := "\n\t\tMATCH (team:Team \x7buuid: $teamUuid\x7d)\n\t\tWITH team\n\t\tMATCH (member:User)-[:MEMBER_OF]->(team),\n    \t\t(manager:User)<-[:MANAGED_BY]-(team),\n    \t\t(persona:Persona)<-[:INHERITS]-(team)\n\n\t\tRETURN collect(member.uuid) AS members,\n\t\t\tmanager.uuid AS manager,\n\t\t\tcollect(persona.uuid) AS personas\n\t\t"
    params := [("teamUuid", .str teamUuid)]
    finish := .single }

/-- A `[]string` argument placed in a parameter map; a nil slice and an empty
one both reach the store as the empty list. -/
def stringsValue : Option (List String) → Value
  | none => .list []
  | some xs => .list (xs.map .str)

/-! ### The write transactions of `transaction.go` -/

def AddTeamTxFunc (teamName : String) : TransactionWork :=
  { statement := "\n\t\tCREATE (t:Team \x7buuid: apoc.create.uuid(), name: $teamName\x7d)\n\t\tRETURN t.uuid as uuid\n\t\t"
    params := [("teamName", .str teamName)]
    finish := .single }

def AddUserTxFunc (userName : String) : TransactionWork :=
  { statement := "\n\t\tCREATE (u:User \x7buuid: apoc.create.uuid(), name: $userName\x7d)\n\t\tRETURN u.uuid as uuid\n\t\t"
    params := [("userName", .str userName)]
    finish := .single }

def AddPersonaTxFunc (name : String) : TransactionWork :=
  { statement := "\n\t\tCREATE (p:Persona \x7buuid: apoc.create.uuid(), name: $name\x7d)\n\t\tRETURN p.uuid as uuid\n\t\t"
    params := [("name", .str name)]
    finish := .single }

def AddPermissionSetTxFunc (name : String) : TransactionWork :=
  { statement := "\n\t\tCREATE (p:PermissionSet \x7buuid: apoc.create.uuid(), name: $name\x7d)\n\t\tRETURN p.uuid as uuid\n\t\t"
    params := [("name", .str name)]
    finish := .single }

def AddAccountTxFunc (accountId : String) (accountAlias : String) (accountClass : String) : TransactionWork :=
  { statement := "\n\t\tMERGE (:Account \x7bid: $accountId, alias: $accountAlias, class: $accountClass\x7d)\n\t\t"
    params := [("accountId", .str accountId), ("accountAlias", .str accountAlias), ("accountClass", .str accountClass)]
    finish := .consume }

def AddRoleTxFunc (name : String) : TransactionWork :=
  { statement := "\n\t\tMERGE (:Role \x7bname: $roleName\x7d)\n\t\t"
    params := [("roleName", .str name)]
    finish := .consume }

def DeleteUserTxFunc (userUuid : String) : TransactionWork :=
  { statement := "\n\t\tMATCH (u:User \x7buuid: $userUuid\x7d)\n\t\tDETACH DELETE u\n\t\t"
    params := [("userUuid", .str userUuid)]
    finish := .consume }

def DeletePersonaTxFunc (personaUuid : String) : TransactionWork :=
  { statement := "\n\t\tMATCH (p:Persona \x7buuid: $personaUuid\x7d)\n\t\tDETACH DELETE p\n\t\t"
    params := [("personaUuid", .str personaUuid)]
    finish := .consume }

def DeleteTeamTxFunc (teamUuid : String) : TransactionWork :=
  { statement := "\n\t\tMATCH (t:Team \x7buuid: $teamUuid\x7d)\n\t\tDETACH DELETE t\n\t\t"
    params := [("teamUuid", .str teamUuid)]
    finish := .consume }

def AddTeamPersonaRelationTxFunc (teamUuid : String) (personaRefs : Option (List String)) : TransactionWork :=
  { statement := "\n\t\tMATCH (t:Team \x7buuid: $teamUuid\x7d)\n\t\tUNWIND personaRefs as persona\n\t\tWITH t, persona\n\t\tMATCH (p:Persona \x7buuid: persona\x7d)\n\t\tMERGE (t)-[:INHERITS]->(p)\n\t\t"
    params := [("teamUuid", .str teamUuid), ("personaRefs", stringsValue personaRefs)]
    finish := .consume }

def AddTeamMemberRelationTxFunc (teamUuid : String) (memberRefs : Option (List String)) : TransactionWork :=
  { statement := "\n\t\tMATCH (t:Team \x7buuid: $teamUuid\x7d)\n\t\tUNWIND memberRefs as member\n\t\tWITH member, t\n\t\tMATCH (u:User \x7buuid: member\x7d)\n\t\tWITH\n\t\tCASE\n\t\t\tWHEN (t)-[:MANAGED_BY]->(u) THEN 1\n\t\t\tELSE 0\n\t\tEND AS is_already_manager\n\t\tWHERE is_already_manager = 0\n\t\tMERGE (t)<-[:MEMBER_OF]-(u)\n\t\t"
    params := [("teamUuid", .str teamUuid), ("memberRefs", stringsValue memberRefs)]
    finish := .consume }

def AddTeamManagedByRelationTxFunc (teamUuid : String) (managerUuid : String) : TransactionWork :=
  { statement := "\n\t\tMATCH (t:Team \x7buuid: $teamUuid\x7d), (u:User \x7buuid: $managerUuid\x7d)\n\t\tWITH\n\t\tCASE\n\t\t\tWHEN (u)-[:MEMBER_OF]->(t) THEN 1\n\t\t\tELSE 0\n\t\tEND AS is_already_member\n\t\tWHERE is_already_member = 0\n\t\tSET u.isManager = true\n\t\tMERGE (t)-[:MANAGED_BY]->(u)\n\t\t"
    params := [("teamUuid", .str teamUuid), ("managerUuid", .str managerUuid)]
    finish := .consume }

def AddManagerPersonaNoInheritRelationTxFunc (teamUuid : String) (managerUuid : String) : TransactionWork :=
  { statement := "\n\t\tMATCH (p:Persona)<-[:INHERITS]-(t:Team \x7buuid: $teamUuid\x7d)-[:MANAGED_BY]->(u:User \x7buuid: $managerUuid\x7d)\n\t\tMERGE (u)-[:NO_INHERITS]->(p)\n\t\t"
    params := [("teamUuid", .str teamUuid), ("managerUuid", .str managerUuid)]
    finish := .consume }

def UpdateTeamTxFunc (teamUuid : String) (manager : String) (personaRefs : Option (List String)) (memberRefs : Option (List String)) : TransactionWork :=
  { statement := "\n\t\tMATCH (t:Team \x7buuid: $teamUuid\x7d)\n\t\tCALL \x7b\n    \t\tWITH t\n    \t\tMATCH p=()-[*]-(t)-[*]-()\n    \t\tFOREACH (x IN relationships(p) | DELETE x)\n\t\t\x7d\n\n\t\tUNWIND personaRefs AS persona\n\t\tCALL \x7b\n    \t\tWITH t, persona\n    \t\tMATCH (p:Persona \x7buuid: persona\x7d)\n    \t\tMERGE (t)-[:INHERITS]-(p)\n\t\t\x7d\n\n\t\tUNWIND memberRefs AS member\n\t\tCALL \x7b\n    \t\tWITH t, member\n    \t\tMATCH (u:User \x7buuid: member\x7d)\n    \t\tMERGE (t)<-[:MEMBER_OF]-(u)\n\t\t\x7d\n\n\t\tCALL \x7b\n\t\t\tWITH t\n\t\t\tMATCH (u:User \x7buuid: $managerUuid\x7d)\n\t\t\tMERGE (t)-[:MANAGED_BY]->(u)\n\t\t\x7d\n\t\t"
    params := [("teamUuid", .str teamUuid), ("memberRefs", stringsValue memberRefs), ("personaRefs", stringsValue personaRefs), ("managerUuid", .str manager)]
    finish := .consume }

def AddPermissionSetAccountRoleRelationTxFunc (permissionSetUuid : String) (accountId : String) (roleName : String) : TransactionWork :=
  { statement := "\n\t\tMATCH (p:PermissionSet \x7buuid: $permissionSetUuid\x7d), (ac:Account \x7bid: $accountId\x7d), (r:Role \x7bname: $roleName\x7d)\n\t\tWITH p as permissionset, ac as account, r as role\n\t\tMERGE (account)<-[:DELEGATES_ACCESS_TO]-(permissionset)-[:DELEGATES_ACCESS_WITH]->(role)\n\t\t"
    params := [("permissionSetUuid", .str permissionSetUuid), ("accountId", .str accountId), ("roleName", .str roleName)]
    finish := .consume }

def AddUserPersonaRelationTxFunc (userUuid : String) (personaRefs : Option (List String)) : TransactionWork :=
  { statement := "\n\t\tUNWIND $personaRefs as persona\n\t\tWITH persona\n\t\tMATCH (u:User \x7buuid: $userUuid\x7d), (p:Persona \x7buuid: persona\x7d)\n\t\tMERGE (u)-[:GRANTED]->(p)\n\t\t"
    params := [("userUuid", .str userUuid), ("personaRefs", stringsValue personaRefs)]
    finish := .consume }

def AddPersonaPermissionSetRelationTxFunc (personaUuid : String) (permissionSetRefs : Option (List String)) : TransactionWork :=
  { statement := "\n\t\tUNWIND $permissionSetRefs as ref\n\t\tWITH ref\n\t\tMATCH (p:Persona \x7buuid: $personaUuid\x7d), (pe:PermissionSet \x7buuid: ref\x7d)\n\t\tMERGE (pe)-[:ATTACHED_TO]->(p)\n\t\t"
    params := [("personaUuid", .str personaUuid), ("permissionSetRefs", stringsValue permissionSetRefs)]
    finish := .consume }

def UpdatePermissionSetTxFunc (permissionSetUuid : String) (name : String) (accountId : String) (accountAlias : String) (accountClass : String) (roleName : String) : TransactionWork :=
  { statement := "\n\t\tMATCH (p:PermissionSet \x7buuid: $permissionSetUuid\x7d), (ac:Account \x7bid: $accountId\x7d), (ro:Role \x7bname: $roleName\x7d)\n\t\tWITH p as permissionset, ac as account, ro as role\n\t\tSET account.id = $accountId, role.name = $roleName, permissionset.name = $name,\n\t\t\taccount.alias = $accountAlias, account.class = $accountClass\n\t\tMERGE (account)<-[:DELEGATES_ACCESS_TO]-(PermissionSet)-[:DELEGATES_ACCESS_WITH]->(role)\n\t\t"
    params := [("permissionSetUuid", .str permissionSetUuid), ("name", .str name), ("accountId", .str accountId), ("accountAlias", .str accountAlias), ("accountClass", .str accountClass), ("roleName", .str roleName)]
    finish := .consume }

def UpdatePersonaTxFunc (personaName : String) (permissionSetRefs : Option (List String)) : TransactionWork :=
  { statement := "\n\t\tMATCH (p:Persona \x7bname: $personaName\x7d)<-[r:ATTACHED_TO]-(pe:PermissionSet)\n\t\tDELETE r\n\n\t\tWITH p\n\t\tUNWIND $permissionSetUuids as permissionSet\n\t\tMATCH (pe:PermissionSet \x7buuid: permissionSet\x7d)\n\t\tMERGE (p)<-[:ATTACHED_TO]-(pe)\n\t\t"
    params := [("permissionSetUuids", stringsValue permissionSetRefs), ("personaName", .str personaName)]
    finish := .consume }

def UpdateUserTxFunc (userName : String) (personaRefs : Option (List String)) : TransactionWork :=
  { statement := "\n\t\tMATCH (u:User \x7bname: $userName\x7d)-[r:DESIGNATED]->(:Persona)\n\t\tDELETE r\n\n\t\tWITH u\n\t\tUNWIND $personaUuids as persona\n\t\tMATCH (p:Persona \x7buuid: persona\x7d)\n\t\tMERGE (u)-[:DESIGNATED]->(p)\n\t\t"
    params := [("personaUuids", stringsValue personaRefs), ("userName", .str userName)]
    finish := .consume }

def DeletePermissionSetTxFunc (uuid : String) : TransactionWork :=
  { statement := "\n\t\tMATCH (i:PermissionSet \x7buuid: $uuid\x7d)\n\t\tDETACH DELETE i\n\t\t"
    params := [("uuid", .str uuid)]
    finish := .consume }

/-! ## Responses of the storage layer -/

/-- `storetypes.Status` is a Go string type with three named constants. -/
abbrev Status := String

def StatusAvailable : Status := "available"
def StatusUnavailable : Status := "unavailable"
def StatusDeleted : Status := "deleted"

structure GetUserResponse where
  References : Option (List String)
  Status : Status
  NodeID : String
  deriving DecidableEq, Repr

structure GetPersonaResponse where
  References : Option (List String)
  Status : Status
  NodeID : String
  deriving DecidableEq, Repr

/-- `v1alpha1.AccountRoleBinding`. -/
structure AccountRoleBinding where
  Alias : String
  Account : String
  AccountClass : String
  RoleName : String
  deriving DecidableEq, Repr

structure GetPermissionSetResponse where
  Binding : AccountRoleBinding
  Status : Status
  NodeID : String
  deriving DecidableEq, Repr

structure GetTeamResponse where
  ManagedBy : String
  Members : Option (List String)
  Personas : Option (List String)
  NodeID : String
  Status : Status
  deriving DecidableEq, Repr

/-! ## Record access -/

/-- The index expression `record.Values[i]`. -/
def valuesAt (values : List Value) (i : Nat) : Except GoPanic Value :=
  match values.get? i with
  | some v => .ok v
  | none => .error .indexOutOfRange

/-- The one-result assertion `v.([]interface{})`, which panics on any other
dynamic type, the nil interface included. -/
def assertSlice : Value → Except GoPanic (List Value)
  | .list vs => .ok vs
  | _ => .error .typeAssertion

/-- The one-result assertion `v.(string)`. -/
def assertString : Value → Except GoPanic String
  | .str s => .ok s
  | _ => .error .typeAssertion

/-- The two-result assertion `x, _ := v.([]interface{})`: a nil slice when the
dynamic type is another one. -/
def sliceOrZero : Value → List Value
  | .list vs => vs
  | _ => []

/-- The two-result assertion `x, _ := v.(string)`. -/
def stringOrZero : Value → String
  | .str s => s
  | _ => ""

/-- The loop `for i, v := range xs { out[i] = fmt.Sprint(v) }` over a slice
made with `make([]string, len(xs))`. -/
def sprintAll (xs : List Value) : List String :=
  xs.map Sprint

def noMoreRecords : String := "Result contains no more records"

/-! ## The four Get operations of `Neo4jDB` -/

/-- `Neo4jDB.GetUser`, on the session the driver opens. -/
def GetUser (session : Session) (userUuid : String) :
    Except GoPanic (GetUserResponse × Option GoError) :=
  match session.ReadTransaction (GetUserTxFunc userUuid) with
  | (_, some err) =>
    if stringsContains err.Error noMoreRecords then
      .ok ({ NodeID := userUuid, Status := StatusDeleted, References := none },
        some .storeEntityNotFound)
    else
      .ok ({ References := none, NodeID := userUuid, Status := StatusUnavailable }, some err)
  | (.nil, none) =>
    .ok ({ NodeID := userUuid, Status := StatusUnavailable, References := none },
      some .storeEntityNotFound)
  | (.nilRecord, none) => .error .nilDereference
  | (.record values, none) => do
    let v ← valuesAt values 0
    let references ← assertSlice v
    let personaSlc := sprintAll references
    if personaSlc.length = 0 then
      .ok ({ NodeID := userUuid, Status := StatusDeleted, References := none },
        some .storeEntityNotFound)
    else
      .ok ({ NodeID := userUuid, Status := StatusAvailable, References := some personaSlc }, none)
  | (.other, none) =>
    .ok ({ References := none, NodeID := userUuid, Status := StatusAvailable },
      some (.txInternal "internal server error"))

/-- `Neo4jDB.GetPersona`. -/
def GetPersona (session : Session) (uuid : String) :
    Except GoPanic (GetPersonaResponse × Option GoError) :=
  match session.ReadTransaction (GetPersonaTxFunc uuid) with
  | (_, some err) =>
    if stringsContains err.Error noMoreRecords then
      .ok ({ NodeID := uuid, Status := StatusDeleted, References := none },
        some .storeEntityNotFound)
    else
      .ok ({ NodeID := uuid, Status := StatusUnavailable, References := none }, some err)
  | (.nil, none) =>
    .ok ({ NodeID := uuid, Status := StatusUnavailable, References := none },
      some .storeEntityNotFound)
  | (.nilRecord, none) => .error .nilDereference
  | (.record values, none) => do
    let v ← valuesAt values 0
    let permissionSets := sliceOrZero v
    let permissionSetSlc := sprintAll permissionSets
    if permissionSetSlc.length = 0 then
      .ok ({ NodeID := uuid, Status := StatusDeleted, References := none },
        some .storeEntityNotFound)
    else
      .ok ({ NodeID := uuid, Status := StatusAvailable, References := some permissionSetSlc },
        none)
  | (.other, none) =>
    .ok ({ NodeID := uuid, Status := StatusUnavailable, References := none },
      some (.txInternal "internal server error"))

def emptyBinding : AccountRoleBinding :=
  { Alias := "", Account := "", AccountClass := "", RoleName := "" }

/-- `Neo4jDB.GetPermissionSet`; the binding's fields are evaluated in the
order the composite literal lists them. -/
def GetPermissionSet (session : Session) (uuid : String) :
    Except GoPanic (GetPermissionSetResponse × Option GoError) :=
  match session.ReadTransaction (GetPermissionSetTxFunc uuid) with
  | (_, some err) =>
    if stringsContains err.Error noMoreRecords then
      .ok ({ Binding := emptyBinding, Status := StatusDeleted, NodeID := uuid },
        some .storeEntityNotFound)
    else
      .ok ({ Binding := emptyBinding, Status := StatusUnavailable, NodeID := uuid }, some err)
  | (.nil, none) =>
    .ok ({ Binding := emptyBinding, Status := StatusDeleted, NodeID := uuid },
      some .storeEntityNotFound)
  | (.nilRecord, none) => .error .nilDereference
  | (.record values, none) => do
    let account ← (valuesAt values 0) >>= assertString
    let accountAlias ← (valuesAt values 1) >>= assertString
    let accountClass ← (valuesAt values 2) >>= assertString
    let roleName ← (valuesAt values 3) >>= assertString
    .ok ({ Binding := { Account := account, Alias := accountAlias, AccountClass := accountClass,
                        RoleName := roleName },
           Status := StatusAvailable, NodeID := uuid }, none)
  | (.other, none) =>
    .ok ({ Binding := emptyBinding, Status := StatusUnavailable, NodeID := uuid },
      some (.txInternal "internal server error"))

/-- `Neo4jDB.GetTeam`. The work it hands to the session is `GetPersonaTxFunc`,
as in the source. -/
def GetTeam (session : Session) (uuid : String) :
    Except GoPanic (GetTeamResponse × Option GoError) :=
  match session.ReadTransaction (GetPersonaTxFunc uuid) with
  | (_, some err) =>
    if stringsContains err.Error noMoreRecords then
      .ok ({ NodeID := uuid, Status := StatusDeleted, ManagedBy := "", Members := none,
             Personas := none }, some .storeEntityNotFound)
    else
      .ok ({ NodeID := uuid, Status := StatusUnavailable, ManagedBy := "", Members := none,
             Personas := none }, some err)
  | (.nil, none) =>
    .ok ({ NodeID := uuid, Status := StatusUnavailable, ManagedBy := "", Members := none,
           Personas := none }, some .storeEntityNotFound)
  | (.nilRecord, none) => .error .nilDereference
  | (.record values, none) => do
    let members := sliceOrZero (← valuesAt values 0)
    let managedBy := stringOrZero (← valuesAt values 1)
    let personas := sliceOrZero (← valuesAt values 2)
    let memberSlc := sprintAll members
    let personaSlc := sprintAll personas
    if memberSlc.length = 0 && personaSlc.length = 0 && managedBy = "" then
      .ok ({ NodeID := uuid, Status := StatusDeleted, ManagedBy := "", Members := none,
             Personas := none }, some .storeEntityNotFound)
    else
      .ok ({ NodeID := uuid, Status := StatusAvailable, ManagedBy := managedBy,
             Members := some memberSlc, Personas := some personaSlc }, none)
  | (.other, none) =>
    .ok ({ NodeID := uuid, Status := StatusUnavailable, ManagedBy := "", Members := none,
           Personas := none }, some (.txInternal "internal server error"))

/-! ## Managed resources -/

/-- A crossplane `xpv1.Reference`, by the name it points at. -/
structure Reference where
  Name : String
  deriving DecidableEq, Repr

/-- A crossplane `xpv1.Selector`. -/
structure Selector where
  MatchLabels : List (String × String)
  MatchControllerRef : Option Bool
  deriving DecidableEq, Repr

/-- Modelled from the spec: the declaration of `UserParameters` (its file is
not among the sources). The spec gives a User a name and persona references;
the controller reads `Name` and `Personas`, and the reference fields follow
the pattern of `PersonaParameters`. -/
structure UserParameters where
  Name : String
  Personas : Option (List String)
  PersonaRefs : Option (List Reference)
  PersonaRefSelector : Option Selector
  deriving DecidableEq, Repr

structure PersonaParameters where
  Name : String
  PermissionSets : Option (List String)
  PermissionSetRefs : Option (List Reference)
  PermissionSetRefSelector : Option Selector
  deriving DecidableEq, Repr

structure PermissionSetParameters where
  BindTo : AccountRoleBinding
  deriving DecidableEq, Repr

structure ManagedByParameters where
  User : String
  UserRef : Option Reference
  UserRefSelector : Option Selector
  deriving DecidableEq, Repr

structure TeamParameters where
  Name : String
  ManagedBy : ManagedByParameters
  Members : Option (List String)
  UserRefs : Option (List Reference)
  UserRefSelector : Option Selector
  Personas : Option (List String)
  PersonaRefs : Option (List Reference)
  PersonaRefSelector : Option Selector
  deriving DecidableEq, Repr

/-- The observation every kind records (`UserObservation`,
`PersonaObservation`, `PermissionSetObservation`, `TeamObservation`): all four
declare the same two fields. -/
structure Observation where
  NodeID : String
  Status : String
  deriving DecidableEq, Repr

/-- A crossplane condition, without its transition time. -/
structure Condition where
  ConditionType : String
  Status : String
  Reason : String
  deriving DecidableEq, Repr

def Available : Condition := { ConditionType := "Ready", Status := "True", Reason := "Available" }
def Unavailable : Condition := { ConditionType := "Ready", Status := "False", Reason := "Unavailable" }
def Creating : Condition := { ConditionType := "Ready", Status := "False", Reason := "Creating" }
def Deleting : Condition := { ConditionType := "Ready", Status := "False", Reason := "Deleting" }

/-- `ConditionedStatus.SetConditions` for one condition: every condition of
the same type is replaced, and the condition is appended when there was none. -/
def SetConditions (conditions : List Condition) (c : Condition) : List Condition :=
  if conditions.any (fun existing => existing.ConditionType = c.ConditionType) then
    conditions.map (fun existing => if existing.ConditionType = c.ConditionType then c else existing)
  else
    conditions ++ [c]

/-- A managed resource of kind `P`: the external-name annotation (the empty
string when absent), the object name, the desired parameters, the recorded
observation and the conditions. -/
structure Resource (P : Type) where
  ExternalName : String
  Name : String
  ForProvider : P
  AtProvider : Observation
  Conditions : List Condition
  deriving DecidableEq, Repr

abbrev User := Resource UserParameters
abbrev Persona := Resource PersonaParameters
abbrev PermissionSet := Resource PermissionSetParameters
abbrev Team := Resource TeamParameters

/-- A `resource.Managed` value: the controllers type-assert it to their kind. -/
inductive Managed where
  | user (cr : User)
  | persona (cr : Persona)
  | permissionSet (cr : PermissionSet)
  | team (cr : Team)
  deriving DecidableEq, Repr

/-- `managed.ExternalObservation`, by the fields the controllers set. -/
structure ExternalObservation where
  ResourceExists : Bool := false
  ResourceUpToDate : Bool := false
  Diff : String := ""
  deriving DecidableEq, Repr

/-! ## go-cmp -/

/-- How a compared value is printed in a report. -/
class GoRender (α : Type) where
  render : α → String

instance : GoRender String where
  render s := "\"" ++ s ++ "\""

instance : GoRender (Option (List String)) where
  render
    | none => "[]string(nil)"
    | some xs => "[]string\x7b" ++ ", ".intercalate (xs.map fun s => "\"" ++ s ++ "\"") ++ "\x7d"

instance : GoRender AccountRoleBinding where
  render b := "\x7bAlias: \"" ++ b.Alias ++ "\", Account: \"" ++ b.Account ++
    "\", AccountClass: \"" ++ b.AccountClass ++ "\", RoleName: \"" ++ b.RoleName ++ "\"\x7d"

/-- `cmp.Equal` on strings, string slices and structs of strings: deep
equality, which for slices tells nil from empty and respects order. The
`IgnoreTypes` options passed for the binding name types that do not occur in
it. -/
def cmpEqual {α : Type} [DecidableEq α] (x y : α) : Bool :=
  decide (x = y)

/-- `cmp.Diff`. go-cmp documents that the report is empty exactly when
`cmp.Equal` holds and leaves the text of a non-empty report unspecified; a
non-empty report is rendered here as a removed line and an added line. -/
def cmpDiff {α : Type} [DecidableEq α] [GoRender α] (x y : α) : String :=
  if cmpEqual x y then "" else "- " ++ GoRender.render x ++ "\n+ " ++ GoRender.render y ++ "\n"

/-! ## The repository behind the services -/

/-- `service.Repository`: the storage operations the services forward to.
Every method may panic. -/
structure Repository where
  CreateUser : String → Option (List String) → Except GoPanic (String × Option GoError)
  GetUser : String → Except GoPanic (GetUserResponse × Option GoError)
  UpdateUser : String → String → Option (List String) → Except GoPanic (Option GoError)
  DeleteUser : String → Except GoPanic (Option GoError)
  CreatePersona : String → Option (List String) → Except GoPanic (String × Option GoError)
  GetPersona : String → Except GoPanic (GetPersonaResponse × Option GoError)
  UpdatePersona : String → String → Option (List String) → Except GoPanic (Option GoError)
  DeletePersona : String → Except GoPanic (Option GoError)
  CreatePermissionSet : String → AccountRoleBinding → Except GoPanic (String × Option GoError)
  GetPermissionSet : String → Except GoPanic (GetPermissionSetResponse × Option GoError)
  UpdatePermissionSet : String → String → AccountRoleBinding → Except GoPanic (Option GoError)
  DeletePermissionSet : String → Except GoPanic (Option GoError)
  CreateTeam : TeamParameters → Except GoPanic (String × Option GoError)
  GetTeam : String → Except GoPanic (GetTeamResponse × Option GoError)
  UpdateTeam : String → TeamParameters → Except GoPanic (Option GoError)
  DeleteTeam : String → Except GoPanic (Option GoError)

/-- A repository whose every method succeeds with zero values, as a basis for
test doubles (`service.MockRepository`). -/
def MockRepository : Repository where
  CreateUser _ _ := .ok ("", none)
  GetUser _ := .ok ({ References := none, Status := "", NodeID := "" }, none)
  UpdateUser _ _ _ := .ok none
  DeleteUser _ := .ok none
  CreatePersona _ _ := .ok ("", none)
  GetPersona _ := .ok ({ References := none, Status := "", NodeID := "" }, none)
  UpdatePersona _ _ _ := .ok none
  DeletePersona _ := .ok none
  CreatePermissionSet _ _ := .ok ("", none)
  GetPermissionSet _ := .ok ({ Binding := emptyBinding, Status := "", NodeID := "" }, none)
  UpdatePermissionSet _ _ _ := .ok none
  DeletePermissionSet _ := .ok none
  CreateTeam _ := .ok ("", none)
  GetTeam _ :=
    .ok ({ ManagedBy := "", Members := none, Personas := none, NodeID := "", Status := "" }, none)
  UpdateTeam _ _ := .ok none
  DeleteTeam _ := .ok none

/-! ## The write operations of `Neo4jDB` -/

/-- The store behind the driver, over time: a write transaction answers with
`(interface{}, error)` and leaves the store in a new state. -/
structure Store (σ : Type) where
  WriteTransaction : σ → TransactionWork → (Dyn × Option GoError) × σ

/-- The two statements every Create runs on the result of its node-creating
transaction: `record := out.(*neo4j.Record)`, a one-result assertion, and
`uuid, ok := record.Values[0].(string)`. The result is `none` when `ok` is
false. -/
def createdUuid : Dyn → Except GoPanic (Option String)
  | .nil => .error .typeAssertion
  | .other => .error .typeAssertion
  | .nilRecord => .error .nilDereference
  | .record values =>
    match valuesAt values 0 with
    | .error p => .error p
    | .ok (.str uuid) => .ok (some uuid)
    | .ok _ => .ok none

/-- The result of a Create of the storage layer and the store it leaves. -/
abbrev CreateOutcome (σ : Type) := Except GoPanic (String × Option GoError) × σ

/-- The result of an Update or Delete of the storage layer and the store it
leaves; neither can panic. -/
abbrev WriteOutcome (σ : Type) := Option GoError × σ

/-- `Neo4jDB.CreateUser`. -/
def CreateUser {σ : Type} (store : Store σ) (s : σ) (userName : String)
    (personaRefs : Option (List String)) : CreateOutcome σ :=
  match store.WriteTransaction s (AddUserTxFunc userName) with
  | ((_, some err), s1) => (.ok ("", some err), s1)
  | ((out, none), s1) =>
    match createdUuid out with
    | .error p => (.error p, s1)
    | .ok none => (.ok ("", some (.plain "no user was created")), s1)
    | .ok (some uuid) =>
      match store.WriteTransaction s1 (AddUserPersonaRelationTxFunc uuid personaRefs) with
      | ((_, some err), s2) => (.ok ("", some err), s2)
      | ((_, none), s2) => (.ok (uuid, none), s2)

/-- `Neo4jDB.UpdateUser`; the uuid argument is not used. -/
def UpdateUser {σ : Type} (store : Store σ) (s : σ) (userName : String) (_userUuid : String)
    (personaRefs : Option (List String)) : WriteOutcome σ :=
  match store.WriteTransaction s (UpdateUserTxFunc userName personaRefs) with
  | ((_, some err), s1) => (some err, s1)
  | ((_, none), s1) => (none, s1)

/-- `Neo4jDB.DeleteUser`. -/
def DeleteUser {σ : Type} (store : Store σ) (s : σ) (userUuid : String) : WriteOutcome σ :=
  match store.WriteTransaction s (DeleteUserTxFunc userUuid) with
  | ((_, some err), s1) => (some err, s1)
  | ((_, none), s1) => (none, s1)

/-- `Neo4jDB.CreatePersona`. -/
def CreatePersona {σ : Type} (store : Store σ) (s : σ) (personaName : String)
    (permissionSetRefs : Option (List String)) : CreateOutcome σ :=
  match store.WriteTransaction s (AddPersonaTxFunc personaName) with
  | ((_, some err), s1) => (.ok ("", some err), s1)
  | ((out, none), s1) =>
    match createdUuid out with
    | .error p => (.error p, s1)
    | .ok none => (.ok ("", some (.plain "no persona was created")), s1)
    | .ok (some uuid) =>
      match store.WriteTransaction s1
          (AddPersonaPermissionSetRelationTxFunc uuid permissionSetRefs) with
      | ((_, some err), s2) => (.ok ("", some err), s2)
      | ((_, none), s2) => (.ok (uuid, none), s2)

/-- `Neo4jDB.UpdatePersona`; the uuid argument is not used. -/
def UpdatePersona {σ : Type} (store : Store σ) (s : σ) (personaName : String)
    (_personaUuid : String) (permissionSetUuids : Option (List String)) : WriteOutcome σ :=
  match store.WriteTransaction s (UpdatePersonaTxFunc personaName permissionSetUuids) with
  | ((_, err), s1) => (err, s1)

/-- `Neo4jDB.DeletePersona`. -/
def DeletePersona {σ : Type} (store : Store σ) (s : σ) (personaUuid : String) :
    WriteOutcome σ :=
  match store.WriteTransaction s (DeletePersonaTxFunc personaUuid) with
  | ((_, err), s1) => (err, s1)

/-- `Neo4jDB.CreatePermissionSet`. -/
def CreatePermissionSet {σ : Type} (store : Store σ) (s : σ) (name : String)
    (binding : AccountRoleBinding) : CreateOutcome σ :=
  match store.WriteTransaction s
      (AddAccountTxFunc binding.Account binding.Alias binding.AccountClass) with
  | ((_, some err), s1) => (.ok ("", some err), s1)
  | ((_, none), s1) =>
    match store.WriteTransaction s1 (AddRoleTxFunc binding.RoleName) with
    | ((_, some err), s2) => (.ok ("", some err), s2)
    | ((_, none), s2) =>
      match store.WriteTransaction s2 (AddPermissionSetTxFunc name) with
      | ((_, some err), s3) => (.ok ("", some err), s3)
      | ((out, none), s3) =>
        match createdUuid out with
        | .error p => (.error p, s3)
        | .ok none => (.ok ("", some (.plain "no permissionset was created")), s3)
        | .ok (some uuid) =>
          match store.WriteTransaction s3
              (AddPermissionSetAccountRoleRelationTxFunc uuid binding.Account
                binding.RoleName) with
          | ((_, some err), s4) => (.ok ("", some err), s4)
          | ((_, none), s4) => (.ok (uuid, none), s4)

/-- `Neo4jDB.UpdatePermissionSet`. -/
def UpdatePermissionSet {σ : Type} (store : Store σ) (s : σ) (permissionSetUuid : String)
    (crName : String) (binding : AccountRoleBinding) : WriteOutcome σ :=
  match store.WriteTransaction s
      (UpdatePermissionSetTxFunc permissionSetUuid crName binding.Account binding.Alias
        binding.AccountClass binding.RoleName) with
  | ((_, some err), s1) => (some err, s1)
  | ((_, none), s1) => (none, s1)

/-- `Neo4jDB.DeletePermissionSet`. -/
def DeletePermissionSet {σ : Type} (store : Store σ) (s : σ) (permissionSetUuid : String) :
    WriteOutcome σ :=
  match store.WriteTransaction s (DeletePermissionSetTxFunc permissionSetUuid) with
  | ((_, some err), s1) => (some err, s1)
  | ((_, none), s1) => (none, s1)

/-- `Neo4jDB.CreateTeam`. -/
def CreateTeam {σ : Type} (store : Store σ) (s : σ) (teamparams : TeamParameters) :
    CreateOutcome σ :=
  match store.WriteTransaction s (AddTeamTxFunc teamparams.Name) with
  | ((_, some err), s1) => (.ok ("", some err), s1)
  | ((out, none), s1) =>
    match createdUuid out with
    | .error p => (.error p, s1)
    | .ok none => (.ok ("", some (.plain "no team was created")), s1)
    | .ok (some uuid) =>
      match store.WriteTransaction s1
          (AddTeamManagedByRelationTxFunc uuid teamparams.ManagedBy.User) with
      | ((_, some err), s2) => (.ok ("", some err), s2)
      | ((_, none), s2) =>
        match store.WriteTransaction s2
            (AddTeamMemberRelationTxFunc uuid teamparams.Members) with
        | ((_, some err), s3) => (.ok ("", some err), s3)
        | ((_, none), s3) =>
          match store.WriteTransaction s3
              (AddTeamPersonaRelationTxFunc uuid teamparams.Personas) with
          | ((_, some err), s4) => (.ok ("", some err), s4)
          | ((_, none), s4) => (.ok (uuid, none), s4)

/-- `Neo4jDB.UpdateTeam`: the third argument handed to `UpdateTeamTxFunc` is
`teamparams.Members` and the fourth `teamparams.Personas`, as in the source. -/
def UpdateTeam {σ : Type} (store : Store σ) (s : σ) (uuid : String)
    (teamparams : TeamParameters) : WriteOutcome σ :=
  match store.WriteTransaction s
      (UpdateTeamTxFunc uuid teamparams.ManagedBy.User teamparams.Members
        teamparams.Personas) with
  | ((_, some err), s1) => (some err, s1)
  | ((_, none), s1) => (none, s1)

/-- `Neo4jDB.DeleteTeam`. -/
def DeleteTeam {σ : Type} (store : Store σ) (s : σ) (uuid : String) : WriteOutcome σ :=
  match store.WriteTransaction s (DeleteTeamTxFunc uuid) with
  | ((_, some err), s1) => (some err, s1)
  | ((_, none), s1) => (none, s1)

/-! ## The services: each forwards to the repository -/

namespace usersvc
def GetUser (repository : Repository) (name : String) :=
  repository.GetUser name
end usersvc

namespace personasvc
def GetPersona (repository : Repository) (uuid : String) :=
  repository.GetPersona uuid
end personasvc

namespace permissionsetsvc
def GetPermissionSet (repository : Repository) (uuid : String) :=
  repository.GetPermissionSet uuid
end permissionsetsvc

namespace teamsvc
def GetTeam (repository : Repository) (uuid : String) :=
  repository.GetTeam uuid
end teamsvc

/-- The result of an `Observe`: the managed resource as the call leaves it,
the observation, and the error. The generated `DeepCopy` of the parameters is
the identity on values (a nil slice stays nil), so the desired fields are read
from the resource directly. -/
abbrev ObserveResult := Except GoPanic (Managed × ExternalObservation × Option GoError)

/-! ## `internal/controller/user` -/

namespace user

def errNotUser : String := "managed resource is not a User custom resource"

def generateUserObservation (r : GetUserResponse) : Observation :=
  { NodeID := r.NodeID, Status := r.Status }

/-- `external.Observe` of the User controller. -/
def Observe (service : Repository) (mg : Managed) : ObserveResult :=
  match mg with
  | .user cr =>
    let ext := cr.ExternalName
    if ext = "" then
      .ok (mg, { ResourceExists := false }, none)
    else do
      let refs := cr.ForProvider.Personas
      let (resp, err) ← usersvc.GetUser service ext
      if err ≠ none then
        .ok (mg, {}, errorsWrap (resourceIgnore IsEntityNotFoundNeo4jErr err) "cannot get user")
      else
        let cr := { cr with AtProvider := generateUserObservation resp }
        let cr :=
          if cr.AtProvider.Status = StatusAvailable then
            { cr with Conditions := SetConditions cr.Conditions Available }
          else if cr.AtProvider.Status = StatusUnavailable then
            { cr with Conditions := SetConditions cr.Conditions Unavailable }
          else cr
        .ok (.user cr,
          { ResourceExists := true
            ResourceUpToDate := cmpEqual refs resp.References
            Diff := cmpDiff refs resp.References }, err)
  | _ => .ok (mg, {}, some (.plain errNotUser))

end user

/-! ## `internal/controller/persona` -/

namespace persona

def errNotPersona : String := "managed resource is not a Persona custom resource"

def generatePersonaObservation (r : GetPersonaResponse) : Observation :=
  { NodeID := r.NodeID, Status := r.Status }

/-- `external.Observe` of the Persona controller. -/
def Observe (service : Repository) (mg : Managed) : ObserveResult :=
  match mg with
  | .persona cr =>
    if cr.ExternalName = "" then
      .ok (mg, { ResourceExists := false }, none)
    else do
      let currentRefs := cr.ForProvider.PermissionSets
      let (resp, err) ← personasvc.GetPersona service cr.ExternalName
      if err ≠ none then
        .ok (mg, {},
          errorsWrap (resourceIgnore IsEntityNotFoundNeo4jErr err) "cannot get persona")
      else
        let cr := { cr with AtProvider := generatePersonaObservation resp }
        let cr :=
          if cr.AtProvider.Status = StatusAvailable then
            { cr with Conditions := SetConditions cr.Conditions Available }
          else if cr.AtProvider.Status = StatusUnavailable then
            { cr with Conditions := SetConditions cr.Conditions Unavailable }
          else cr
        .ok (.persona cr,
          { ResourceExists := true
            ResourceUpToDate := cmpEqual currentRefs resp.References
            Diff := cmpDiff currentRefs resp.References }, none)
  | _ => .ok (mg, {}, some (.plain errNotPersona))

end persona

/-! ## `internal/controller/permissionset` -/

namespace permissionset

def errNotPermissionSet : String := "managed resource is not a PermissionSet custom resource"

def generatePermissionSetObservation (r : GetPermissionSetResponse) : Observation :=
  { NodeID := r.NodeID, Status := r.Status }

def postObserve (cr : PermissionSet) (obs : ExternalObservation) (err : Option GoError) :
    Managed × ExternalObservation × Option GoError :=
  if err ≠ none then
    (.permissionSet cr, {}, err)
  else
    (.permissionSet { cr with Conditions := SetConditions cr.Conditions Available }, obs, none)

/-- `external.Observe` of the PermissionSet controller. -/
def Observe (service : Repository) (mg : Managed) : ObserveResult :=
  match mg with
  | .permissionSet cr =>
    let ext := cr.ExternalName
    if ext = "" then
      .ok (mg, { ResourceExists := false }, none)
    else do
      let desiredBinding := cr.ForProvider.BindTo
      let (resp, err) ← permissionsetsvc.GetPermissionSet service ext
      if err ≠ none then
        .ok (mg, {},
          errorsWrap (resourceIgnore IsEntityNotFoundNeo4jErr err) "cannot get permissionset")
      else
        let cr := { cr with AtProvider := generatePermissionSetObservation resp }
        .ok (postObserve cr
          { ResourceExists := true
            ResourceUpToDate := cmpEqual desiredBinding resp.Binding
            Diff := cmpDiff desiredBinding resp.Binding } err)
  | _ => .ok (mg, {}, some (.plain errNotPermissionSet))

end permissionset

/-! ## `internal/controller/team` -/

namespace team

def errNotTeam : String := "managed resource is not a Team custom resource"

def generateTeamObservation (r : GetTeamResponse) : Observation :=
  { NodeID := r.NodeID, Status := r.Status }

/-- `external.Observe` of the Team controller. -/
def Observe (service : Repository) (mg : Managed) : ObserveResult :=
  match mg with
  | .team cr =>
    if cr.ExternalName = "" then
      .ok (mg, { ResourceExists := false }, none)
    else do
      let currentParams := cr.ForProvider
      let (resp, err) ← teamsvc.GetTeam service cr.ExternalName
      if err ≠ none then
        .ok (mg, {}, errorsWrap (resourceIgnore IsEntityNotFoundNeo4jErr err) "cannot get team")
      else
        let cr := { cr with AtProvider := generateTeamObservation resp }
        let cr :=
          if cr.AtProvider.Status = StatusAvailable then
            { cr with Conditions := SetConditions cr.Conditions Available }
          else if cr.AtProvider.Status = StatusUnavailable then
            { cr with Conditions := SetConditions cr.Conditions Unavailable }
          else cr
        .ok (.team cr,
          { ResourceExists := true
            ResourceUpToDate :=
              cmpEqual currentParams.Members resp.Members &&
                cmpEqual currentParams.ManagedBy.User resp.ManagedBy
            Diff :=
              cmpDiff currentParams.Members resp.Members ++
                cmpDiff currentParams.ManagedBy.User resp.ManagedBy }, err)
  | _ => .ok (mg, {}, some (.plain errNotTeam))

end team

/-! ## The services, continued: Create, Update and Delete -/

namespace usersvc
def CreateUser (repository : Repository) (username : String)
    (personaReferences : Option (List String)) :=
  repository.CreateUser username personaReferences
def UpdateUser (repository : Repository) (name uuid : String)
    (references : Option (List String)) :=
  repository.UpdateUser name uuid references
def DeleteUser (repository : Repository) (name : String) :=
  repository.DeleteUser name
end usersvc

namespace personasvc
def CreatePersona (repository : Repository) (personaname : String)
    (personaReferences : Option (List String)) :=
  repository.CreatePersona personaname personaReferences
def UpdatePersona (repository : Repository) (name uuid : String)
    (references : Option (List String)) :=
  repository.UpdatePersona name uuid references
def DeletePersona (repository : Repository) (name : String) :=
  repository.DeletePersona name
end personasvc

namespace permissionsetsvc
def CreatePermissionSet (repository : Repository) (name : String)
    (binding : AccountRoleBinding) :=
  repository.CreatePermissionSet name binding
def UpdatePermissionSet (repository : Repository) (uuid name : String)
    (binding : AccountRoleBinding) :=
  repository.UpdatePermissionSet uuid name binding
def DeletePermissionSet (repository : Repository) (name : String) :=
  repository.DeletePermissionSet name
end permissionsetsvc

namespace teamsvc
def CreateTeam (repository : Repository) (params : TeamParameters) :=
  repository.CreateTeam params
def UpdateTeam (repository : Repository) (name : String) (params : TeamParameters) :=
  repository.UpdateTeam name params
def DeleteTeam (repository : Repository) (name : String) :=
  repository.DeleteTeam name
end teamsvc

/-- `managed.ExternalCreation`, by the field the controllers set. -/
structure ExternalCreation where
  ExternalNameAssigned : Bool := false
  deriving DecidableEq, Repr

/-- `managed.ExternalUpdate`; the controllers always return the empty value. -/
structure ExternalUpdate where
  deriving DecidableEq, Repr

/-- The result of a controller's `Create`: the resource as the call leaves it,
the creation record and the error. -/
abbrev CreateResult := Except GoPanic (Managed × ExternalCreation × Option GoError)

/-- The result of a controller's `Update`. -/
abbrev UpdateResult := Except GoPanic (Managed × ExternalUpdate × Option GoError)

/-- The result of a controller's `Delete`: the resource as the call leaves it
and the error. -/
abbrev DeleteResult := Except GoPanic (Managed × Option GoError)

/-! ### `internal/controller/user`: Create, Update, Delete -/

namespace user

/-- `postCreate`: on success `meta.SetExternalName(cr, uuid)`. -/
def postCreate (cr : User) (ec : ExternalCreation) (uuid : String) (err : Option GoError) :
    Managed × ExternalCreation × Option GoError :=
  if err ≠ none then
    (.user cr, {}, errorsWrap err "cannot create user")
  else
    (.user { cr with ExternalName := uuid }, ec, none)

/-- `external.Create` of the User controller. -/
def Create (service : Repository) (mg : Managed) : CreateResult :=
  match mg with
  | .user cr => do
    let cr := { cr with Conditions := SetConditions cr.Conditions Creating }
    let (uuid, err) ← usersvc.CreateUser service cr.ForProvider.Name cr.ForProvider.Personas
    .ok (postCreate cr { ExternalNameAssigned := true } uuid err)
  | _ => .ok (mg, {}, some (.plain errNotUser))

/-- `external.Update` of the User controller. -/
def Update (service : Repository) (mg : Managed) : UpdateResult :=
  match mg with
  | .user cr => do
    let err ← usersvc.UpdateUser service cr.Name cr.ExternalName cr.ForProvider.Personas
    .ok (mg, {}, errorsWrap err "cannot update user")
  | _ => .ok (mg, {}, some (.plain errNotUser))

/-- `external.Delete` of the User controller. -/
def Delete (service : Repository) (mg : Managed) : DeleteResult :=
  match mg with
  | .user cr => do
    let cr := { cr with Conditions := SetConditions cr.Conditions Deleting }
    let err ← usersvc.DeleteUser service cr.ExternalName
    .ok (.user cr,
      errorsWrap (resourceIgnore IsEntityNotFoundNeo4jErr err) "cannot delete user")
  | _ => .ok (mg, some (.plain errNotUser))

end user

/-! ### `internal/controller/persona`: Create, Update, Delete -/

namespace persona

/-- `postCreate`: on success `meta.SetExternalName(cr, uuid)`. -/
def postCreate (cr : Persona) (ec : ExternalCreation) (uuid : String) (err : Option GoError) :
    Managed × ExternalCreation × Option GoError :=
  if err ≠ none then
    (.persona cr, {}, errorsWrap err "cannot create persona")
  else
    (.persona { cr with ExternalName := uuid }, ec, none)

/-- `external.Create` of the Persona controller. -/
def Create (service : Repository) (mg : Managed) : CreateResult :=
  match mg with
  | .persona cr => do
    let cr := { cr with Conditions := SetConditions cr.Conditions Creating }
    let (uuid, err) ← personasvc.CreatePersona service cr.ForProvider.Name cr.ForProvider.PermissionSets
    .ok (postCreate cr { ExternalNameAssigned := true } uuid err)
  | _ => .ok (mg, {}, some (.plain errNotPersona))

/-- `external.Update` of the Persona controller. -/
def Update (service : Repository) (mg : Managed) : UpdateResult :=
  match mg with
  | .persona cr => do
    let err ← personasvc.UpdatePersona service cr.Name cr.ExternalName cr.ForProvider.PermissionSets
    .ok (mg, {}, errorsWrap err "cannot update persona")
  | _ => .ok (mg, {}, none)

/-- `external.Delete` of the Persona controller. -/
def Delete (service : Repository) (mg : Managed) : DeleteResult :=
  match mg with
  | .persona cr => do
    let cr := { cr with Conditions := SetConditions cr.Conditions Deleting }
    let err ← personasvc.DeletePersona service cr.ExternalName
    .ok (.persona cr,
      errorsWrap (resourceIgnore IsEntityNotFoundNeo4jErr err) "cannot delete persona")
  | _ => .ok (mg, none)

end persona

/-! ### `internal/controller/permissionset`: Create, Update, Delete -/

namespace permissionset

/-- `postCreate`: on success `meta.SetExternalName(cr, uuid)`. -/
def postCreate (cr : PermissionSet) (ec : ExternalCreation) (uuid : String) (err : Option GoError) :
    Managed × ExternalCreation × Option GoError :=
  if err ≠ none then
    (.permissionSet cr, {}, errorsWrap err "cannot create permissionset")
  else
    (.permissionSet { cr with ExternalName := uuid }, ec, none)

/-- `external.Create` of the PermissionSet controller. -/
def Create (service : Repository) (mg : Managed) : CreateResult :=
  match mg with
  | .permissionSet cr => do
    let cr := { cr with Conditions := SetConditions cr.Conditions Creating }
    let (uuid, err) ← permissionsetsvc.CreatePermissionSet service cr.Name cr.ForProvider.BindTo
    .ok (postCreate cr { ExternalNameAssigned := true } uuid err)
  | _ => .ok (mg, {}, some (.plain errNotPermissionSet))

/-- `external.Update` of the PermissionSet controller. -/
def Update (service : Repository) (mg : Managed) : UpdateResult :=
  match mg with
  | .permissionSet cr => do
    let err ← permissionsetsvc.UpdatePermissionSet service cr.ExternalName cr.Name
        cr.ForProvider.BindTo
    .ok (mg, {}, errorsWrap err "cannot update permissionset")
  | _ => .ok (mg, {}, some (.plain errNotPermissionSet))

/-- `external.Delete` of the PermissionSet controller. -/
def Delete (service : Repository) (mg : Managed) : DeleteResult :=
  match mg with
  | .permissionSet cr => do
    let cr := { cr with Conditions := SetConditions cr.Conditions Deleting }
    let err ← permissionsetsvc.DeletePermissionSet service cr.ExternalName
    .ok (.permissionSet cr,
      errorsWrap (resourceIgnore IsEntityNotFoundNeo4jErr err) "cannot delete permissionset")
  | _ => .ok (mg, some (.plain errNotPermissionSet))

end permissionset

/-! ### `internal/controller/team`: Create, Update, Delete -/

namespace team

/-- `postCreate`: on success `meta.SetExternalName(cr, uuid)`. -/
def postCreate (cr : Team) (ec : ExternalCreation) (uuid : String) (err : Option GoError) :
    Managed × ExternalCreation × Option GoError :=
  if err ≠ none then
    (.team cr, {}, errorsWrap err "cannot create team")
  else
    (.team { cr with ExternalName := uuid }, ec, none)

/-- `external.Create` of the Team controller. -/
def Create (service : Repository) (mg : Managed) : CreateResult :=
  match mg with
  | .team cr => do
    let cr := { cr with Conditions := SetConditions cr.Conditions Creating }
    let (uuid, err) ← teamsvc.CreateTeam service cr.ForProvider
    .ok (postCreate cr { ExternalNameAssigned := true } uuid err)
  | _ => .ok (mg, {}, some (.plain errNotTeam))

/-- `external.Update` of the Team controller. -/
def Update (service : Repository) (mg : Managed) : UpdateResult :=
  match mg with
  | .team cr => do
    let err ← teamsvc.UpdateTeam service cr.ExternalName cr.ForProvider
    .ok (mg, {}, errorsWrap err "cannot update team")
  | _ => .ok (mg, {}, some (.plain errNotTeam))

/-- `external.Delete` of the Team controller. -/
def Delete (service : Repository) (mg : Managed) : DeleteResult :=
  match mg with
  | .team cr => do
    let cr := { cr with Conditions := SetConditions cr.Conditions Deleting }
    let err ← teamsvc.DeleteTeam service cr.ExternalName
    .ok (.team cr,
      errorsWrap (resourceIgnore IsEntityNotFoundNeo4jErr err) "cannot delete team")
  | _ => .ok (mg, some (.plain errNotTeam))

end team

/-! ## The error predicates of the `transaction` package -/

namespace transaction

/-- `transaction.IsConstraintViolationNeo4jErr`: the two-result assertion
`nerr, _ := err.(*db.Neo4jError)` leaves `nerr` nil for every other dynamic
type, and `nerr.Code` then dereferences it. -/
def IsConstraintViolationNeo4jErr : Option GoError → Except GoPanic Bool
  | some (.neo4j code _) => .ok (code == "Neo.ClientError.Schema.ConstraintViolation")
  | _ => .error .nilDereference

/-- `transaction.IsEntityNotFoundNeo4jErr`: a type assertion to
`*transaction.EntityNotFoundError`. -/
def IsEntityNotFoundNeo4jErr : Option GoError → Bool
  | some (.txEntityNotFound _) => true
  | _ => false

end transaction

/-! ## Test doubles and read-outs of an observation -/

/-- A session that answers every transaction with the same pair. -/
def constSession (out : Dyn) (err : Option GoError) : Session :=
  { ReadTransaction := fun _ => (out, err), WriteTransaction := fun _ => (out, err) }

/-- Whether an `Observe` returned an observation with `ResourceExists` set;
a panic returns no observation. -/
def reportsExists : ObserveResult → Bool
  | .ok (_, obs, _) => obs.ResourceExists
  | .error _ => false

/-- The `ResourceUpToDate` verdict of an `Observe`, when it returned one. -/
def reportedUpToDate : ObserveResult → Option Bool
  | .ok (_, obs, _) => some obs.ResourceUpToDate
  | .error _ => none

/-- The `Diff` text of an `Observe`, when it returned one. -/
def reportedDiff : ObserveResult → Option String
  | .ok (_, obs, _) => some obs.Diff
  | .error _ => none

/-- A repository whose `GetUser` and `GetPersona` succeed and report the given
references as available. -/
def refsRepository (observed : Option (List String)) : Repository :=
  { MockRepository with
    GetUser := fun uuid =>
      .ok ({ References := observed, Status := StatusAvailable, NodeID := uuid }, none)
    GetPersona := fun uuid =>
      .ok ({ References := observed, Status := StatusAvailable, NodeID := uuid }, none) }

/-- A repository whose `GetPermissionSet` succeeds with the given binding. -/
def bindingRepository (observed : AccountRoleBinding) : Repository :=
  { MockRepository with
    GetPermissionSet := fun uuid =>
      .ok ({ Binding := observed, Status := StatusAvailable, NodeID := uuid }, none) }

/-- A repository whose `GetTeam` succeeds with the given relationships. -/
def teamRepository (manager : String) (members personas : Option (List String)) :
    Repository :=
  { MockRepository with
    GetTeam := fun uuid =>
      .ok ({ ManagedBy := manager, Members := members, Personas := personas, NodeID := uuid,
             Status := StatusAvailable }, none) }

/-- A repository whose four Get methods fail with the given error. -/
def failingRepository (e : GoError) : Repository :=
  { MockRepository with
    GetUser := fun uuid =>
      .ok ({ References := none, Status := StatusDeleted, NodeID := uuid }, some e)
    GetPersona := fun uuid =>
      .ok ({ References := none, Status := StatusDeleted, NodeID := uuid }, some e)
    GetPermissionSet := fun uuid =>
      .ok ({ Binding := emptyBinding, Status := StatusDeleted, NodeID := uuid }, some e)
    GetTeam := fun uuid =>
      .ok ({ ManagedBy := "", Members := none, Personas := none, NodeID := uuid,
             Status := StatusDeleted }, some e) }

/-- A fresh managed resource with the given external name and parameters. -/
def resourceWith {P : Type} (externalName : String) (forProvider : P) : Resource P :=
  { ExternalName := externalName, Name := "example", ForProvider := forProvider,
    AtProvider := { NodeID := "", Status := "" }, Conditions := [] }

def userParams (personas : Option (List String)) : UserParameters :=
  { Name := "user", Personas := personas, PersonaRefs := none, PersonaRefSelector := none }

def personaParams (permissionSets : Option (List String)) : PersonaParameters :=
  { Name := "persona", PermissionSets := permissionSets, PermissionSetRefs := none,
    PermissionSetRefSelector := none }

def teamParams (manager : String) (members personas : Option (List String)) : TeamParameters :=
  { Name := "team",
    ManagedBy := { User := manager, UserRef := none, UserRefSelector := none },
    Members := members, UserRefs := none, UserRefSelector := none,
    Personas := personas, PersonaRefs := none, PersonaRefSelector := none }

/-- `errors.Cause`: the chain of wrapped errors is followed down to the first
error that wraps nothing. -/
def errorsCause : GoError → GoError
  | .wrapped cause _ => errorsCause cause
  | e => e

/-- A repository whose every Create returns the given uuid and error, and
whose every Update and Delete returns the given error. -/
def writeRepository (uuid : String) (e : Option GoError) : Repository :=
  { MockRepository with
    CreateUser := fun _ _ => .ok (uuid, e)
    UpdateUser := fun _ _ _ => .ok e
    DeleteUser := fun _ => .ok e
    CreatePersona := fun _ _ => .ok (uuid, e)
    UpdatePersona := fun _ _ _ => .ok e
    DeletePersona := fun _ => .ok e
    CreatePermissionSet := fun _ _ => .ok (uuid, e)
    UpdatePermissionSet := fun _ _ _ => .ok e
    DeletePermissionSet := fun _ => .ok e
    CreateTeam := fun _ => .ok (uuid, e)
    UpdateTeam := fun _ _ => .ok e
    DeleteTeam := fun _ => .ok e }

/-- A store that accepts every write transaction and keeps the list of the
works it was handed, oldest first. -/
def recordingStore : Store (List TransactionWork) :=
  { WriteTransaction := fun log work => ((.other, none), log ++ [work]) }

/-- A store without state that answers every write transaction with the same
pair. -/
def constStore (out : Dyn) (err : Option GoError) : Store Unit :=
  { WriteTransaction := fun _ _ => ((out, err), ()) }

/-! ## A graph store for the Create path of User and Persona -/

/-- A node of the access graph: its label, its `uuid` and its `name`. -/
structure GraphNode where
  label : String
  uuid : String
  name : String
  deriving DecidableEq, Repr

/-- A relationship of the access graph, between the nodes with the two uuids. -/
structure GraphEdge where
  kind : String
  source : String
  target : String
  deriving DecidableEq, Repr

/-- The state of the graph store; `minted` counts the uuids handed out by
`apoc.create.uuid()`. -/
structure Graph where
  nodes : List GraphNode
  edges : List GraphEdge
  minted : Nat
  deriving DecidableEq, Repr

def emptyGraph : Graph := { nodes := [], edges := [], minted := 0 }

/-- Whether a node pattern `(:label {uuid: ...})` matches a node. -/
def Graph.hasNode (g : Graph) (label uuid : String) : Bool :=
  g.nodes.any fun n => n.label == label && n.uuid == uuid

/-- `MERGE` of one relationship: written unless it is there already. -/
def Graph.mergeEdge (g : Graph) (e : GraphEdge) : Graph :=
  if e ∈ g.edges then g else { g with edges := g.edges ++ [e] }

/-- `CREATE (x:label {uuid: apoc.create.uuid(), name: $name}) RETURN x.uuid
as uuid`, ended by `Single`: the node is added under a new uuid and the record
holds that uuid. -/
def Graph.createNode (g : Graph) (label name : String) : (Dyn × Option GoError) × Graph :=
  ((.record [.str ("uuid-" ++ toString g.minted)], none),
    { g with
      nodes := g.nodes ++ [{ label := label, uuid := "uuid-" ++ toString g.minted,
                             name := name }]
      minted := g.minted + 1 })

/-- `UNWIND $refs as ref WITH ref MATCH (a:aLabel {uuid: $a}), (b:bLabel
{uuid: ref}) MERGE ...`, ended by `Consume`: for every reference whose two
nodes are matched the relationship is merged; a reference that matches no node
yields no row and nothing is written for it; the statement succeeds either
way. -/
def Graph.relate (g : Graph) (aLabel a bLabel : String) (refs : List String)
    (edge : String → GraphEdge) : (Dyn × Option GoError) × Graph :=
  ((.other, none),
    refs.foldl
      (fun acc ref =>
        if acc.hasNode aLabel a && acc.hasNode bLabel ref then acc.mergeEdge (edge ref)
        else acc)
      g)

/-- The string bound to a key of a parameter map. -/
def paramString (params : List (String × Value)) (key : String) : Option String :=
  match params.lookup key with
  | some (.str v) => some v
  | _ => none

/-- The strings of the list bound to a key of a parameter map. -/
def paramStrings (params : List (String × Value)) (key : String) : Option (List String) :=
  match params.lookup key with
  | some (.list vs) =>
    some (vs.filterMap fun v =>
      match v with
      | .str x => some x
      | _ => none)
  | _ => none

def parameterMissing : GoError :=
  .neo4j "Neo.ClientError.Statement.ParameterMissing" "Expected parameter(s)"

/-- A store that executes the four statements of `CreateUser` and
`CreatePersona` on a `Graph` as Cypher does, and answers every other statement
with an error. -/
def graphStore : Store Graph :=
  { WriteTransaction := fun g work =>
      if work.statement = (AddUserTxFunc "").statement then
        match paramString work.params "userName" with
        | some name => g.createNode "User" name
        | none => ((.nil, some parameterMissing), g)
      else if work.statement = (AddPersonaTxFunc "").statement then
        match paramString work.params "name" with
        | some name => g.createNode "Persona" name
        | none => ((.nil, some parameterMissing), g)
      else if work.statement = (AddUserPersonaRelationTxFunc "" none).statement then
        match paramString work.params "userUuid", paramStrings work.params "personaRefs" with
        | some user, some refs =>
          g.relate "User" user "Persona" refs
            fun ref => { kind := "GRANTED", source := user, target := ref }
        | _, _ => ((.nil, some parameterMissing), g)
      else if work.statement = (AddPersonaPermissionSetRelationTxFunc "" none).statement then
        match paramString work.params "personaUuid",
            paramStrings work.params "permissionSetRefs" with
        | some persona, some refs =>
          g.relate "Persona" persona "PermissionSet" refs
            fun ref => { kind := "ATTACHED_TO", source := ref, target := persona }
        | _, _ => ((.nil, some parameterMissing), g)
      else ((.nil, some (.plain "statement outside the graph store")), g) }

/-- The error a store reports for a work run in a state. -/
def Store.errorOf {σ : Type} (store : Store σ) (s : σ) (work : TransactionWork) :
    Option GoError :=
  (store.WriteTransaction s work).1.2

/-- The value a store returns for a work run in a state. -/
def Store.outOf {σ : Type} (store : Store σ) (s : σ) (work : TransactionWork) : Dyn :=
  (store.WriteTransaction s work).1.1

/-- The state a store is in after a work run in a state. -/
def Store.after {σ : Type} (store : Store σ) (s : σ) (work : TransactionWork) : σ :=
  (store.WriteTransaction s work).2

/-! ## Sessions and stores that expose what they are handed -/

/-- A session that fails every transaction with an error whose text is the
statement it was handed. -/
def probeSession : Session :=
  { ReadTransaction := fun work => (.nil, some (.plain work.statement))
    WriteTransaction := fun work => (.nil, some (.plain work.statement)) }

/-- A session that answers the Team read query with one record and every
other statement with another. -/
def teamQuerySession (team other : List Value) : Session :=
  { ReadTransaction := fun work =>
      if work.statement = (GetTeamTxFunc "").statement then (.record team, none)
      else (.record other, none)
    WriteTransaction := fun _ => (.other, none) }

/-- The repository whose four Get methods are those of `Neo4jDB` on a
session. -/
def neo4jGetRepository (session : Session) : Repository :=
  { MockRepository with
    GetUser := GetUser session
    GetPersona := GetPersona session
    GetPermissionSet := GetPermissionSet session
    GetTeam := GetTeam session }

/-- A store with transactional commits: the state is the list of the works
committed so far. A work for which `fails` gives an error is answered with
that error and commits nothing; every other work is committed and answered
with `out`. -/
def faultyStore (fails : TransactionWork → Option GoError) (out : TransactionWork → Dyn) :
    Store (List TransactionWork) :=
  { WriteTransaction := fun committed work =>
      match fails work with
      | some e => ((.nil, some e), committed)
      | none => ((out work, none), committed ++ [work]) }

/-- A character of a parameter name. -/
def isNameChar (c : Char) : Bool :=
  c.isAlphanum || c == '_'

/-- The longest run of name characters a text starts with. -/
def takeName : List Char → List Char
  | [] => []
  | c :: cs => if isNameChar c then c :: takeName cs else []

/-- The names written as `$name` in a text, in order of occurrence. -/
def dollarNames : List Char → List String
  | [] => []
  | c :: cs => if c == '$' then String.mk (takeName cs) :: dollarNames cs else dollarNames cs

/-- The named parameters a work's statement refers to. -/
def referencedParameters (work : TransactionWork) : List String :=
  (dollarNames work.statement.data).eraseDups

/-- The keys of a work's parameter map. -/
def parameterKeys (work : TransactionWork) : List String :=
  work.params.map Prod.fst

/-- The keys of the parameter map that the statement never refers to as
`$key`. -/
def unusedKeys (work : TransactionWork) : List String :=
  (parameterKeys work).filter fun k => !(referencedParameters work).contains k

/-- The `$name`s of the statement for which the map holds no value. -/
def unboundNames (work : TransactionWork) : List String :=
  (referencedParameters work).filter fun k => !(parameterKeys work).contains k

/-- Every transaction function of `transaction.go`, applied to empty
arguments. -/
def transactionFunctions : List (String × TransactionWork) :=
  [
    ("GetUserTxFunc", GetUserTxFunc ""),
    ("GetPersonaTxFunc", GetPersonaTxFunc ""),
    ("GetPermissionSetTxFunc", GetPermissionSetTxFunc ""),
    ("GetTeamTxFunc", GetTeamTxFunc ""),
    ("AddTeamTxFunc", AddTeamTxFunc ""),
    ("AddUserTxFunc", AddUserTxFunc ""),
    ("AddPersonaTxFunc", AddPersonaTxFunc ""),
    ("AddPermissionSetTxFunc", AddPermissionSetTxFunc ""),
    ("AddAccountTxFunc", AddAccountTxFunc "" "" ""),
    ("AddRoleTxFunc", AddRoleTxFunc ""),
    ("DeleteUserTxFunc", DeleteUserTxFunc ""),
    ("DeletePersonaTxFunc", DeletePersonaTxFunc ""),
    ("DeleteTeamTxFunc", DeleteTeamTxFunc ""),
    ("AddTeamPersonaRelationTxFunc", AddTeamPersonaRelationTxFunc "" none),
    ("AddTeamMemberRelationTxFunc", AddTeamMemberRelationTxFunc "" none),
    ("AddTeamManagedByRelationTxFunc", AddTeamManagedByRelationTxFunc "" ""),
    ("AddManagerPersonaNoInheritRelationTxFunc", AddManagerPersonaNoInheritRelationTxFunc "" ""),
    ("UpdateTeamTxFunc", UpdateTeamTxFunc "" "" none none),
    ("AddPermissionSetAccountRoleRelationTxFunc", AddPermissionSetAccountRoleRelationTxFunc "" "" ""),
    ("AddUserPersonaRelationTxFunc", AddUserPersonaRelationTxFunc "" none),
    ("AddPersonaPermissionSetRelationTxFunc", AddPersonaPermissionSetRelationTxFunc "" none),
    ("UpdatePermissionSetTxFunc", UpdatePermissionSetTxFunc "" "" "" "" "" ""),
    ("UpdatePersonaTxFunc", UpdatePersonaTxFunc "" none),
    ("UpdateUserTxFunc", UpdateUserTxFunc "" none),
    ("DeletePermissionSetTxFunc", DeletePermissionSetTxFunc "") ]

/-- A repository whose four Get methods succeed with the given status and
zero values otherwise. -/
def statusRepository (status : Status) : Repository :=
  { MockRepository with
    GetUser := fun uuid => .ok ({ References := none, Status := status, NodeID := uuid }, none)
    GetPersona := fun uuid =>
      .ok ({ References := none, Status := status, NodeID := uuid }, none)
    GetPermissionSet := fun uuid =>
      .ok ({ Binding := emptyBinding, Status := status, NodeID := uuid }, none)
    GetTeam := fun uuid =>
      .ok ({ ManagedBy := "", Members := none, Personas := none, NodeID := uuid,
             Status := status }, none) }

/-! ## Statements the store rejects as written

Cypher resolves every variable of a statement before it runs it, and rejects
the statement when one is not defined where it is read. Two cases occur in
`transaction.go`: `UNWIND personaRefs` and `UNWIND memberRefs`, where the
name is neither a `$parameter` nor bound by an earlier clause, and
`SET u.isManager` behind a `WITH` that carries over `is_already_member`
alone. The checks below find these two cases in a statement text. -/

/-- The words and marks of a statement text, in order: a word is a longest run
of name characters, a mark is one other character; blanks only separate. -/
def lexAux : List Char → List Char → List String
  | [], word => if word.isEmpty then [] else [String.mk word.reverse]
  | c :: cs, word =>
    if isNameChar c then lexAux cs (c :: word)
    else
      (if word.isEmpty then [] else [String.mk word.reverse]) ++
        (if c.isWhitespace then [] else [String.mk [c]]) ++ lexAux cs []

/-- The words and marks of a statement. -/
def lexStatement (statement : String) : List String :=
  lexAux statement.data []

/-- The operands of `UNWIND` that are a bare name (not a `$parameter`) which no
earlier word of the statement is: a variable no clause has bound. The first
argument holds the words read so far, latest first. -/
def unboundUnwinds : List String → List String → List String
  | _, [] => []
  | seen, t :: rest =>
    (if seen.head? = some "UNWIND" && t != "$" && !seen.contains t then [t] else []) ++
      unboundUnwinds (t :: seen) rest

/-- The words after the last occurrence of a word. -/
def afterLast (word : String) : List String → Option (List String)
  | [] => none
  | t :: ts =>
    match afterLast word ts with
    | some rest => some rest
    | none => if t = word then some ts else none

/-- The name each comma-separated item of a `WITH` clause carries over: the
last word of the item (`p as permissionset` carries `permissionset`, `t`
carries `t`). -/
def carriedNames : List String → Option String → List String
  | [], last => last.toList
  | t :: ts, last =>
    if t = "," then last.toList ++ carriedNames ts none else carriedNames ts (some t)

/-- The variable of the first `SET` clause, when the last `WITH` before it does
not carry it over: a variable that is out of scope where it is written. -/
def droppedSetVariable (tokens : List String) : Option String :=
  let before := tokens.takeWhile (· != "SET")
  let after := (tokens.dropWhile (· != "SET")).drop 1
  match afterLast "WITH" before, after.head? with
  | some clause, some target =>
    if (carriedNames (clause.takeWhile (· != "WHERE")) none).contains target then none
    else some target
  | _, _ => none

/-- Whether the statement reads a variable that is not defined where it is
read: the operand of an `UNWIND` that no clause has bound, or the variable of
a `SET` behind a `WITH` that dropped it. Cypher rejects such a statement
before it runs. -/
def refersToUndefinedVariable (statement : String) : Bool :=
  !(unboundUnwinds [] (lexStatement statement)).isEmpty ||
    (droppedSetVariable (lexStatement statement)).isSome

/-- C1. For each of the four entity kinds, when the read transaction fails
with an error whose message contains "Result contains no more records", Get
returns status `deleted`, the requested uuid as NodeID, nil references (an
empty binding for PermissionSet) and the `EntityNotFoundError` of
`storetypes`, which `IsEntityNotFoundNeo4jErr` accepts and `IsInternalError`
rejects. -/
theorem C1_zero_records_error_reads_as_deleted (session : Session) (uuid : String)
    (out : Dyn) (e : GoError) (hmsg : stringsContains e.Error noMoreRecords = true) :
    (session.ReadTransaction (GetUserTxFunc uuid) = (out, some e) →
      GetUser session uuid =
        .ok ({ References := none, Status := StatusDeleted, NodeID := uuid },
          some .storeEntityNotFound)) ∧
    (session.ReadTransaction (GetPersonaTxFunc uuid) = (out, some e) →
      GetPersona session uuid =
        .ok ({ References := none, Status := StatusDeleted, NodeID := uuid },
          some .storeEntityNotFound)) ∧
    (session.ReadTransaction (GetPermissionSetTxFunc uuid) = (out, some e) →
      GetPermissionSet session uuid =
        .ok ({ Binding := emptyBinding, Status := StatusDeleted, NodeID := uuid },
          some .storeEntityNotFound)) ∧
    (session.ReadTransaction (GetPersonaTxFunc uuid) = (out, some e) →
      GetTeam session uuid =
        .ok ({ ManagedBy := "", Members := none, Personas := none, NodeID := uuid,
               Status := StatusDeleted }, some .storeEntityNotFound)) ∧
    IsEntityNotFoundNeo4jErr (some .storeEntityNotFound) = true ∧
    IsInternalError (some .storeEntityNotFound) = false := by
  refine ⟨?_, ?_, ?_, ?_, rfl, rfl⟩
  · intro h; simp [GetUser, h, hmsg]
  · intro h; simp [GetPersona, h, hmsg]
  · intro h; simp [GetPermissionSet, h, hmsg]
  · intro h; simp [GetTeam, h, hmsg]

/-- Witness of C1: a session failing with the driver's zero-records message. -/
theorem C1_zero_records_error_reads_as_deleted_witness :
    GetUser (constSession .nil (some (.plain "Result contains no more records"))) "u-1" =
        .ok ({ References := none, Status := StatusDeleted, NodeID := "u-1" },
          some .storeEntityNotFound) ∧
    GetTeam (constSession .nil (some (.plain "Result contains no more records"))) "u-1" =
        .ok ({ ManagedBy := "", Members := none, Personas := none, NodeID := "u-1",
               Status := StatusDeleted }, some .storeEntityNotFound) :=
  have h := C1_zero_records_error_reads_as_deleted
    (constSession .nil (some (.plain "Result contains no more records"))) "u-1" .nil
    (.plain "Result contains no more records") (by decide)
  ⟨h.1 rfl, h.2.2.2.1 rfl⟩

/-! ## C2: the nil result -/

/-- C2. Evaluation of the four Get operations on a read transaction that
succeeds with the nil interface: `GetPermissionSet` answers `deleted` with the
entity-not-found error, while `GetUser`, `GetPersona` and `GetTeam` answer
`unavailable` with that same error, a status different from `deleted`. -/
theorem C2_nil_result_status_by_kind :
    GetPermissionSet (constSession .nil none) "id-1" =
      .ok ({ Binding := emptyBinding, Status := StatusDeleted, NodeID := "id-1" },
        some .storeEntityNotFound) ∧
    GetUser (constSession .nil none) "id-1" =
      .ok ({ References := none, Status := StatusUnavailable, NodeID := "id-1" },
        some .storeEntityNotFound) ∧
    GetPersona (constSession .nil none) "id-1" =
      .ok ({ References := none, Status := StatusUnavailable, NodeID := "id-1" },
        some .storeEntityNotFound) ∧
    GetTeam (constSession .nil none) "id-1" =
      .ok ({ ManagedBy := "", Members := none, Personas := none, NodeID := "id-1",
             Status := StatusUnavailable }, some .storeEntityNotFound) ∧
    StatusUnavailable ≠ StatusDeleted := by
  refine ⟨rfl, rfl, rfl, rfl, ?_⟩
  decide

/-! ## C3: the empty aggregation -/

/-- C3. For User and Persona, a record whose first column is an empty list
gives status `deleted`, nil references and the entity-not-found error. For
Team, a record with a member list, a manager column and a persona list gives
that result exactly when both lists are empty and the manager column holds no
non-empty string. -/
theorem C3_empty_aggregation_reads_as_deleted (session : Session) (uuid : String)
    (rest : List Value) :
    (session.ReadTransaction (GetUserTxFunc uuid) = (.record (.list [] :: rest), none) →
      GetUser session uuid =
        .ok ({ References := none, Status := StatusDeleted, NodeID := uuid },
          some .storeEntityNotFound)) ∧
    (session.ReadTransaction (GetPersonaTxFunc uuid) = (.record (.list [] :: rest), none) →
      GetPersona session uuid =
        .ok ({ References := none, Status := StatusDeleted, NodeID := uuid },
          some .storeEntityNotFound)) ∧
    (∀ (members personas : List Value) (manager : Value),
      session.ReadTransaction (GetPersonaTxFunc uuid) =
          (.record (.list members :: manager :: .list personas :: rest), none) →
      (GetTeam session uuid =
          .ok ({ ManagedBy := "", Members := none, Personas := none, NodeID := uuid,
                 Status := StatusDeleted }, some .storeEntityNotFound) ↔
        members = [] ∧ personas = [] ∧ stringOrZero manager = "")) := by
  refine ⟨?_, ?_, ?_⟩
  · intro h
    simp [GetUser, h, valuesAt, assertSlice, sprintAll, bind, Except.bind]
  · intro h
    simp [GetPersona, h, valuesAt, sliceOrZero, sprintAll, bind, Except.bind]
  · intro members personas manager h
    by_cases hc : members = [] ∧ personas = [] ∧ stringOrZero manager = ""
    · obtain ⟨hm, hp, hg⟩ := hc
      simp [GetTeam, h, valuesAt, sliceOrZero, sprintAll, bind, Except.bind, hm, hp, hg]
    · simp only [hc, iff_false]
      simp only [not_and] at hc
      simp [GetTeam, h, valuesAt, sliceOrZero, sprintAll, bind, Except.bind]
      intro hm hp hg
      exact absurd hg (hc hm hp)

/-- Witness of C3: one-column and three-column records holding empty lists. -/
theorem C3_empty_aggregation_reads_as_deleted_witness :
    GetUser (constSession (.record [.list []]) none) "u-1" =
        .ok ({ References := none, Status := StatusDeleted, NodeID := "u-1" },
          some .storeEntityNotFound) ∧
    GetTeam (constSession (.record [.list [], .null, .list []]) none) "t-1" =
        .ok ({ ManagedBy := "", Members := none, Personas := none, NodeID := "t-1",
               Status := StatusDeleted }, some .storeEntityNotFound) :=
  ⟨(C3_empty_aggregation_reads_as_deleted (constSession (.record [.list []]) none) "u-1" []).1
      rfl,
   ((C3_empty_aggregation_reads_as_deleted
      (constSession (.record [.list [], .null, .list []]) none) "t-1" []).2.2
      [] [] .null rfl).2 ⟨rfl, rfl, rfl⟩⟩

/-! ## C4: any other query error -/

/-- C4. For each of the four entity kinds, when the read transaction fails
with an error whose message does not contain the zero-records text, Get
returns status `unavailable` (with the uuid and nil references or an empty
binding) and returns that very error. -/
theorem C4_other_query_error_reads_as_unavailable (session : Session) (uuid : String)
    (out : Dyn) (e : GoError) (hmsg : stringsContains e.Error noMoreRecords = false) :
    (session.ReadTransaction (GetUserTxFunc uuid) = (out, some e) →
      GetUser session uuid =
        .ok ({ References := none, Status := StatusUnavailable, NodeID := uuid }, some e)) ∧
    (session.ReadTransaction (GetPersonaTxFunc uuid) = (out, some e) →
      GetPersona session uuid =
        .ok ({ References := none, Status := StatusUnavailable, NodeID := uuid }, some e)) ∧
    (session.ReadTransaction (GetPermissionSetTxFunc uuid) = (out, some e) →
      GetPermissionSet session uuid =
        .ok ({ Binding := emptyBinding, Status := StatusUnavailable, NodeID := uuid },
          some e)) ∧
    (session.ReadTransaction (GetPersonaTxFunc uuid) = (out, some e) →
      GetTeam session uuid =
        .ok ({ ManagedBy := "", Members := none, Personas := none, NodeID := uuid,
               Status := StatusUnavailable }, some e)) := by
  refine ⟨?_, ?_, ?_, ?_⟩
  · intro h; simp [GetUser, h, hmsg]
  · intro h; simp [GetPersona, h, hmsg]
  · intro h; simp [GetPermissionSet, h, hmsg]
  · intro h; simp [GetTeam, h, hmsg]

/-- Witness of C4: a session failing with a store error of another kind. -/
theorem C4_other_query_error_reads_as_unavailable_witness :
    GetUser (constSession .nil (some (.neo4j "Neo.TransientError.General" "down"))) "u-1" =
        .ok ({ References := none, Status := StatusUnavailable, NodeID := "u-1" },
          some (.neo4j "Neo.TransientError.General" "down")) ∧
    GetPermissionSet (constSession .nil (some (.neo4j "Neo.TransientError.General" "down")))
        "u-1" =
        .ok ({ Binding := emptyBinding, Status := StatusUnavailable, NodeID := "u-1" },
          some (.neo4j "Neo.TransientError.General" "down")) :=
  have h := C4_other_query_error_reads_as_unavailable
    (constSession .nil (some (.neo4j "Neo.TransientError.General" "down"))) "u-1" .nil
    (.neo4j "Neo.TransientError.General" "down") (by decide)
  ⟨h.1 rfl, h.2.2.1 rfl⟩

/-! ## C5: the non-empty aggregation -/

/-- C5. For User and Persona, a record whose first column is a non-empty list
gives status `available`, a nil error and, as references, the list's elements
printed by `fmt.Sprint`, as many as the list has and in its order. For Team,
a record with a member list, a manager column and a persona list of which at
least one is non-empty gives status `available` with Members and Personas
printed from the two lists and ManagedBy taken from the manager column. -/
theorem C5_non_empty_aggregation_reads_as_available (session : Session) (uuid : String)
    (rest : List Value) :
    (∀ refs : List Value, refs ≠ [] →
      session.ReadTransaction (GetUserTxFunc uuid) = (.record (.list refs :: rest), none) →
      GetUser session uuid =
        .ok ({ References := some (refs.map Sprint), Status := StatusAvailable,
               NodeID := uuid }, none)) ∧
    (∀ refs : List Value, refs ≠ [] →
      session.ReadTransaction (GetPersonaTxFunc uuid) = (.record (.list refs :: rest), none) →
      GetPersona session uuid =
        .ok ({ References := some (refs.map Sprint), Status := StatusAvailable,
               NodeID := uuid }, none)) ∧
    (∀ (members personas : List Value) (manager : Value),
      (members ≠ [] ∨ personas ≠ [] ∨ stringOrZero manager ≠ "") →
      session.ReadTransaction (GetPersonaTxFunc uuid) =
          (.record (.list members :: manager :: .list personas :: rest), none) →
      GetTeam session uuid =
        .ok ({ ManagedBy := stringOrZero manager, Members := some (members.map Sprint),
               Personas := some (personas.map Sprint), NodeID := uuid,
               Status := StatusAvailable }, none)) ∧
    (∀ refs : List Value, (refs.map Sprint).length = refs.length ∧
      ∀ i : Nat, (refs.map Sprint).get? i = (refs.get? i).map Sprint) := by
  refine ⟨?_, ?_, ?_, ?_⟩
  · intro refs hne h
    simp [GetUser, h, valuesAt, assertSlice, sprintAll, bind, Except.bind, hne]
  · intro refs hne h
    simp [GetPersona, h, valuesAt, sliceOrZero, sprintAll, bind, Except.bind, hne]
  · intro members personas manager hne h
    have hc : ¬ (members = [] ∧ personas = [] ∧ stringOrZero manager = "") := by
      rintro ⟨hm, hp, hg⟩
      rcases hne with h1 | h1 | h1
      · exact h1 hm
      · exact h1 hp
      · exact h1 hg
    simp only [not_and] at hc
    simp [GetTeam, h, valuesAt, sliceOrZero, sprintAll, bind, Except.bind]
    intro hm hp hg
    exact absurd hg (hc hm hp)
  · intro refs
    exact ⟨List.length_map _ _, fun i => by simp⟩

/-- Witness of C5: a user with two personas and a team with one member. -/
theorem C5_non_empty_aggregation_reads_as_available_witness :
    GetUser (constSession (.record [.list [.str "p-1", .str "p-2"]]) none) "u-1" =
        .ok ({ References := some ["p-1", "p-2"], Status := StatusAvailable,
               NodeID := "u-1" }, none) ∧
    GetTeam (constSession (.record [.list [.str "u-2"], .str "u-1", .list []]) none) "t-1" =
        .ok ({ ManagedBy := "u-1", Members := some ["u-2"], Personas := some [],
               NodeID := "t-1", Status := StatusAvailable }, none) :=
  ⟨(C5_non_empty_aggregation_reads_as_available
      (constSession (.record [.list [.str "p-1", .str "p-2"]]) none) "u-1" []).1
      [.str "p-1", .str "p-2"] (by simp) rfl,
   (C5_non_empty_aggregation_reads_as_available
      (constSession (.record [.list [.str "u-2"], .str "u-1", .list []]) none) "t-1" []).2.2.1
      [.str "u-2"] [] (.str "u-1") (Or.inl (by simp)) rfl⟩

/-! ## C6: panics of the read path -/

/-- C6. Evaluation of the Get operations on results a read transaction can
deliver without error: `GetTeam` panics with an index out of range on the
one-column record that the persona query it runs produces; `GetUser` panics
on a first column that is null; `GetPermissionSet` panics on a null column;
every Get panics on a record without columns. -/
theorem C6_get_panics_on_delivered_records :
    GetTeam (constSession (.record [.list []]) none) "t-1" = .error .indexOutOfRange ∧
    GetTeam (constSession (.record [.list [.str "ps-1"]]) none) "t-1" =
      .error .indexOutOfRange ∧
    GetUser (constSession (.record [.null]) none) "u-1" = .error .typeAssertion ∧
    GetPermissionSet (constSession (.record [.str "111111111111", .null, .str "prod",
      .str "viewer"]) none) "ps-1" = .error .typeAssertion ∧
    GetUser (constSession (.record []) none) "u-1" = .error .indexOutOfRange ∧
    GetPersona (constSession (.record []) none) "p-1" = .error .indexOutOfRange ∧
    GetPermissionSet (constSession (.record []) none) "ps-1" = .error .indexOutOfRange ∧
    GetTeam (constSession (.record []) none) "t-1" = .error .indexOutOfRange := by
  refine ⟨rfl, rfl, rfl, rfl, rfl, rfl, rfl, rfl⟩

/-! ## C7: the existence verdict -/

/-- C7. For each entity kind, `Observe` reports `ResourceExists = true` exactly
when the external name is non-empty and Get returned no error; with an empty
external name, and with a Get that returns an entity-not-found error, it
returns the unchanged resource, `ResourceExists = false` and a nil error. -/
theorem C7_exists_iff_named_and_get_succeeded (service : Repository) :
    (∀ cr : User,
      (reportsExists (user.Observe service (.user cr)) = true ↔
        cr.ExternalName ≠ "" ∧ ∃ resp, service.GetUser cr.ExternalName = .ok (resp, none)) ∧
      (cr.ExternalName = "" →
        user.Observe service (.user cr) = .ok (.user cr, { ResourceExists := false }, none)) ∧
      (∀ resp e, cr.ExternalName ≠ "" →
        service.GetUser cr.ExternalName = .ok (resp, some e) →
        IsEntityNotFoundNeo4jErr (some e) = true →
        user.Observe service (.user cr) =
          .ok (.user cr, { ResourceExists := false }, none))) ∧
    (∀ cr : Persona,
      (reportsExists (persona.Observe service (.persona cr)) = true ↔
        cr.ExternalName ≠ "" ∧
          ∃ resp, service.GetPersona cr.ExternalName = .ok (resp, none)) ∧
      (cr.ExternalName = "" →
        persona.Observe service (.persona cr) =
          .ok (.persona cr, { ResourceExists := false }, none)) ∧
      (∀ resp e, cr.ExternalName ≠ "" →
        service.GetPersona cr.ExternalName = .ok (resp, some e) →
        IsEntityNotFoundNeo4jErr (some e) = true →
        persona.Observe service (.persona cr) =
          .ok (.persona cr, { ResourceExists := false }, none))) ∧
    (∀ cr : PermissionSet,
      (reportsExists (permissionset.Observe service (.permissionSet cr)) = true ↔
        cr.ExternalName ≠ "" ∧
          ∃ resp, service.GetPermissionSet cr.ExternalName = .ok (resp, none)) ∧
      (cr.ExternalName = "" →
        permissionset.Observe service (.permissionSet cr) =
          .ok (.permissionSet cr, { ResourceExists := false }, none)) ∧
      (∀ resp e, cr.ExternalName ≠ "" →
        service.GetPermissionSet cr.ExternalName = .ok (resp, some e) →
        IsEntityNotFoundNeo4jErr (some e) = true →
        permissionset.Observe service (.permissionSet cr) =
          .ok (.permissionSet cr, { ResourceExists := false }, none))) ∧
    (∀ cr : Team,
      (reportsExists (team.Observe service (.team cr)) = true ↔
        cr.ExternalName ≠ "" ∧ ∃ resp, service.GetTeam cr.ExternalName = .ok (resp, none)) ∧
      (cr.ExternalName = "" →
        team.Observe service (.team cr) = .ok (.team cr, { ResourceExists := false }, none)) ∧
      (∀ resp e, cr.ExternalName ≠ "" →
        service.GetTeam cr.ExternalName = .ok (resp, some e) →
        IsEntityNotFoundNeo4jErr (some e) = true →
        team.Observe service (.team cr) =
          .ok (.team cr, { ResourceExists := false }, none))) := by
  refine ⟨fun cr => ⟨?_, ?_, ?_⟩, fun cr => ⟨?_, ?_, ?_⟩, fun cr => ⟨?_, ?_, ?_⟩,
    fun cr => ⟨?_, ?_, ?_⟩⟩
  · by_cases hx : cr.ExternalName = ""
    · simp [user.Observe, hx, reportsExists]
    · rcases hg : service.GetUser cr.ExternalName with p | ⟨resp, err⟩
      · simp [user.Observe, hx, reportsExists, usersvc.GetUser, hg, bind, Except.bind]
      · cases err <;>
          simp [user.Observe, hx, reportsExists, usersvc.GetUser, hg, bind, Except.bind]
  · intro hx
    simp [user.Observe, hx]
  · intro resp e hx hg he
    simp [user.Observe, hx, usersvc.GetUser, hg, bind, Except.bind, resourceIgnore, he,
      errorsWrap]
  · by_cases hx : cr.ExternalName = ""
    · simp [persona.Observe, hx, reportsExists]
    · rcases hg : service.GetPersona cr.ExternalName with p | ⟨resp, err⟩
      · simp [persona.Observe, hx, reportsExists, personasvc.GetPersona, hg, bind, Except.bind]
      · cases err <;>
          simp [persona.Observe, hx, reportsExists, personasvc.GetPersona, hg, bind,
            Except.bind]
  · intro hx
    simp [persona.Observe, hx]
  · intro resp e hx hg he
    simp [persona.Observe, hx, personasvc.GetPersona, hg, bind, Except.bind, resourceIgnore,
      he, errorsWrap]
  · by_cases hx : cr.ExternalName = ""
    · simp [permissionset.Observe, hx, reportsExists]
    · rcases hg : service.GetPermissionSet cr.ExternalName with p | ⟨resp, err⟩
      · simp [permissionset.Observe, hx, reportsExists, permissionsetsvc.GetPermissionSet, hg,
          bind, Except.bind]
      · cases err <;>
          simp [permissionset.Observe, permissionset.postObserve, hx, reportsExists,
            permissionsetsvc.GetPermissionSet, hg, bind, Except.bind]
  · intro hx
    simp [permissionset.Observe, hx]
  · intro resp e hx hg he
    simp [permissionset.Observe, hx, permissionsetsvc.GetPermissionSet, hg, bind, Except.bind,
      resourceIgnore, he, errorsWrap]
  · by_cases hx : cr.ExternalName = ""
    · simp [team.Observe, hx, reportsExists]
    · rcases hg : service.GetTeam cr.ExternalName with p | ⟨resp, err⟩
      · simp [team.Observe, hx, reportsExists, teamsvc.GetTeam, hg, bind, Except.bind]
      · cases err <;>
          simp [team.Observe, hx, reportsExists, teamsvc.GetTeam, hg, bind, Except.bind]
  · intro hx
    simp [team.Observe, hx]
  · intro resp e hx hg he
    simp [team.Observe, hx, teamsvc.GetTeam, hg, bind, Except.bind, resourceIgnore, he,
      errorsWrap]

/-- Witness of C7: a named user whose Get answers entity-not-found is reported
as not existing, with a nil error. -/
theorem C7_exists_iff_named_and_get_succeeded_witness :
    user.Observe (failingRepository .storeEntityNotFound)
        (.user (resourceWith "u-1" (userParams (some ["p-1"])))) =
      .ok (.user (resourceWith "u-1" (userParams (some ["p-1"]))),
        { ResourceExists := false }, none) :=
  ((C7_exists_iff_named_and_get_succeeded (failingRepository .storeEntityNotFound)).1
    (resourceWith "u-1" (userParams (some ["p-1"])))).2.2
    { References := none, Status := StatusDeleted, NodeID := "u-1" } .storeEntityNotFound
    (by decide) rfl rfl

/-! ## C8: the reference verdict of User and Persona -/

/-- A report of `cmpDiff` is empty exactly when the compared values are equal. -/
theorem cmpDiff_eq_empty_iff {α : Type} [DecidableEq α] [GoRender α] (x y : α) :
    cmpDiff x y = "" ↔ x = y := by
  unfold cmpDiff cmpEqual
  by_cases h : x = y
  · simp [h]
  · simp only [h, decide_False, Bool.false_eq_true, if_false, iff_false]
    intro hc
    have hl := congrArg String.length hc
    simp only [String.length_append] at hl
    have h2 : "- ".length = 2 := by decide
    have h0 : "".length = 0 := by decide
    omega

/-- `cmpEqual` holds exactly when the compared values are equal. -/
theorem cmpEqual_eq_true_iff {α : Type} [DecidableEq α] (x y : α) :
    cmpEqual x y = true ↔ x = y := by
  simp [cmpEqual]

/-- C8, as stated, fails. Desired `[x, y]` against observed `[y, x]` (the same
set) is reported as not up to date with a non-empty diff by the User
controller, and so is desired `[x, x]` against observed `[x]` by the Persona
controller. -/
theorem C8_set_equal_references_reported_as_drift :
    (∀ a : String, a ∈ ["x", "y"] ↔ a ∈ ["y", "x"]) ∧
    reportedUpToDate (user.Observe (refsRepository (some ["y", "x"]))
      (.user (resourceWith "u-1" (userParams (some ["x", "y"]))))) = some false ∧
    reportedDiff (user.Observe (refsRepository (some ["y", "x"]))
      (.user (resourceWith "u-1" (userParams (some ["x", "y"]))))) ≠ some "" ∧
    (∀ a : String, a ∈ ["x", "x"] ↔ a ∈ ["x"]) ∧
    reportedUpToDate (persona.Observe (refsRepository (some ["x"]))
      (.persona (resourceWith "p-1" (personaParams (some ["x", "x"]))))) = some false ∧
    reportedDiff (persona.Observe (refsRepository (some ["x"]))
      (.persona (resourceWith "p-1" (personaParams (some ["x", "x"]))))) ≠ some "" := by
  refine ⟨?_, ?_, ?_, ?_, ?_, ?_⟩
  · intro a; simp [or_comm]
  · decide
  · decide
  · intro a; simp
  · decide
  · decide

/-- C8, amended. For User and Persona, whenever Get succeeds, `Observe`
returns an observation whose `ResourceUpToDate` is true exactly when the
desired and the observed references are the same sequence (both nil, or both
non-nil with the same entries in the same order), and whose `Diff` is empty
in exactly that case. -/
theorem C8_up_to_date_iff_same_sequence (service : Repository) :
    (∀ (cr : User) (resp : GetUserResponse), cr.ExternalName ≠ "" →
      service.GetUser cr.ExternalName = .ok (resp, none) →
      ∃ mg obs, user.Observe service (.user cr) = .ok (mg, obs, none) ∧
        (obs.ResourceUpToDate = true ↔ cr.ForProvider.Personas = resp.References) ∧
        (obs.Diff = "" ↔ cr.ForProvider.Personas = resp.References)) ∧
    (∀ (cr : Persona) (resp : GetPersonaResponse), cr.ExternalName ≠ "" →
      service.GetPersona cr.ExternalName = .ok (resp, none) →
      ∃ mg obs, persona.Observe service (.persona cr) = .ok (mg, obs, none) ∧
        (obs.ResourceUpToDate = true ↔ cr.ForProvider.PermissionSets = resp.References) ∧
        (obs.Diff = "" ↔ cr.ForProvider.PermissionSets = resp.References)) := by
  refine ⟨?_, ?_⟩
  · intro cr resp hx hg
    simp only [user.Observe, hx, usersvc.GetUser, hg, bind, Except.bind, if_false,
      ne_eq, not_true_eq_false]
    exact ⟨_, _, rfl, cmpEqual_eq_true_iff _ _, cmpDiff_eq_empty_iff _ _⟩
  · intro cr resp hx hg
    simp only [persona.Observe, hx, personasvc.GetPersona, hg, bind, Except.bind, if_false,
      ne_eq, not_true_eq_false]
    exact ⟨_, _, rfl, cmpEqual_eq_true_iff _ _, cmpDiff_eq_empty_iff _ _⟩

/-- Witness of C8 (amended): identical desired and observed references are
up to date with an empty diff. -/
theorem C8_up_to_date_iff_same_sequence_witness :
    ∃ mg obs, user.Observe (refsRepository (some ["x", "y"]))
        (.user (resourceWith "u-1" (userParams (some ["x", "y"])))) = .ok (mg, obs, none) ∧
      obs.ResourceUpToDate = true ∧ obs.Diff = "" :=
  let ⟨mg, obs, h, hu, hd⟩ := (C8_up_to_date_iff_same_sequence
    (refsRepository (some ["x", "y"]))).1 (resourceWith "u-1" (userParams (some ["x", "y"])))
    { References := some ["x", "y"], Status := StatusAvailable, NodeID := "u-1" }
    (by decide) rfl
  ⟨mg, obs, h, hu.2 rfl, hd.2 rfl⟩

/-! ## C9: the binding verdict of PermissionSet -/

/-- C9. For PermissionSet, whenever Get succeeds, `Observe` returns an
observation whose `ResourceUpToDate` is true exactly when the desired and the
observed binding agree on account, alias, account class and role name. -/
theorem C9_permissionset_up_to_date_iff_binding_fields_match (service : Repository)
    (cr : PermissionSet) (resp : GetPermissionSetResponse) (hx : cr.ExternalName ≠ "")
    (hg : service.GetPermissionSet cr.ExternalName = .ok (resp, none)) :
    ∃ mg obs, permissionset.Observe service (.permissionSet cr) = .ok (mg, obs, none) ∧
      (obs.ResourceUpToDate = true ↔
        cr.ForProvider.BindTo.Account = resp.Binding.Account ∧
        cr.ForProvider.BindTo.Alias = resp.Binding.Alias ∧
        cr.ForProvider.BindTo.AccountClass = resp.Binding.AccountClass ∧
        cr.ForProvider.BindTo.RoleName = resp.Binding.RoleName) := by
  simp only [permissionset.Observe, permissionset.postObserve, hx,
    permissionsetsvc.GetPermissionSet, hg, bind, Except.bind, if_false, ne_eq,
    not_true_eq_false]
  refine ⟨_, _, rfl, ?_⟩
  rw [cmpEqual_eq_true_iff]
  constructor
  · intro h
    rw [h]
    exact ⟨rfl, rfl, rfl, rfl⟩
  · rintro ⟨h1, h2, h3, h4⟩
    cases hd : cr.ForProvider.BindTo
    cases ho : resp.Binding
    simp only [hd, ho] at h1 h2 h3 h4
    simp [h1, h2, h3, h4]

/-- Witness of C9: a binding that differs in its alias only is not up to
date. -/
theorem C9_permissionset_up_to_date_iff_binding_fields_match_witness :
    ∃ mg obs, permissionset.Observe
        (bindingRepository
          { Alias := "prod", Account := "111111111111", AccountClass := "c", RoleName := "viewer" })
        (.permissionSet (resourceWith "ps-1" { BindTo :=
          { Alias := "dev", Account := "111111111111", AccountClass := "c",
            RoleName := "viewer" } })) = .ok (mg, obs, none) ∧
      obs.ResourceUpToDate ≠ true :=
  let ⟨mg, obs, h, hu⟩ := C9_permissionset_up_to_date_iff_binding_fields_match
    (bindingRepository
      { Alias := "prod", Account := "111111111111", AccountClass := "c", RoleName := "viewer" })
    (resourceWith "ps-1" { BindTo :=
      { Alias := "dev", Account := "111111111111", AccountClass := "c", RoleName := "viewer" } })
    { Binding :=
        { Alias := "prod", Account := "111111111111", AccountClass := "c", RoleName := "viewer" },
      Status := StatusAvailable, NodeID := "ps-1" }
    (by decide) rfl
  ⟨mg, obs, h, fun hc => absurd (hu.1 hc).2.1 (by decide)⟩

/-! ## C10: the verdict of Team -/

/-- C10. Evaluation of the Team controller on a team whose desired personas
`[p-1]` differ from the observed personas `[p-2]` while manager and members
agree: `Observe` reports the team as up to date with an empty diff. -/
theorem C10_team_persona_drift_reported_up_to_date :
    some ["p-1"] ≠ some ["p-2"] ∧
    team.Observe (teamRepository "u-1" (some ["u-2"]) (some ["p-2"]))
        (.team (resourceWith "t-1" (teamParams "u-1" (some ["u-2"]) (some ["p-1"])))) =
      .ok (.team { resourceWith "t-1" (teamParams "u-1" (some ["u-2"]) (some ["p-1"])) with
                   AtProvider := { NodeID := "t-1", Status := StatusAvailable },
                   Conditions := [Available] },
        { ResourceExists := true, ResourceUpToDate := true, Diff := "" }, none) := by
  refine ⟨by decide, ?_⟩
  rfl

/-! ## C11: Delete of the controllers -/

/-- The error a controller's Delete returns is nil exactly when the store's
error is nil or is the entity-not-found error. -/
theorem ignored_wrap_eq_none_iff (err : Option GoError) (message : String) :
    errorsWrap (resourceIgnore IsEntityNotFoundNeo4jErr err) message = none ↔
      err = none ∨ IsEntityNotFoundNeo4jErr err = true := by
  cases err with
  | none => simp [resourceIgnore, errorsWrap, IsEntityNotFoundNeo4jErr]
  | some e =>
    by_cases h : IsEntityNotFoundNeo4jErr (some e) = true
    · simp [resourceIgnore, errorsWrap, h]
    · simp [resourceIgnore, errorsWrap, h]

/-- C11. For each entity kind, when the store's delete returns, the
controller's `Delete` returns a nil error exactly when the store returned nil or
an entity-not-found error; the external name is left as it was, so a second
`Delete` on the resulting resource returns the same error again. -/
theorem C11_delete_nil_iff_store_nil_or_not_found (service : Repository) :
    (∀ (cr : User) (storeErr : Option GoError),
      service.DeleteUser cr.ExternalName = .ok storeErr →
      ∃ (cr1 cr2 : User) (err : Option GoError),
        user.Delete service (.user cr) = .ok (.user cr1, err) ∧
        user.Delete service (.user cr1) = .ok (.user cr2, err) ∧
        (err = none ↔ storeErr = none ∨ IsEntityNotFoundNeo4jErr storeErr = true)) ∧
    (∀ (cr : Persona) (storeErr : Option GoError),
      service.DeletePersona cr.ExternalName = .ok storeErr →
      ∃ (cr1 cr2 : Persona) (err : Option GoError),
        persona.Delete service (.persona cr) = .ok (.persona cr1, err) ∧
        persona.Delete service (.persona cr1) = .ok (.persona cr2, err) ∧
        (err = none ↔ storeErr = none ∨ IsEntityNotFoundNeo4jErr storeErr = true)) ∧
    (∀ (cr : PermissionSet) (storeErr : Option GoError),
      service.DeletePermissionSet cr.ExternalName = .ok storeErr →
      ∃ (cr1 cr2 : PermissionSet) (err : Option GoError),
        permissionset.Delete service (.permissionSet cr) = .ok (.permissionSet cr1, err) ∧
        permissionset.Delete service (.permissionSet cr1) = .ok (.permissionSet cr2, err) ∧
        (err = none ↔ storeErr = none ∨ IsEntityNotFoundNeo4jErr storeErr = true)) ∧
    (∀ (cr : Team) (storeErr : Option GoError),
      service.DeleteTeam cr.ExternalName = .ok storeErr →
      ∃ (cr1 cr2 : Team) (err : Option GoError),
        team.Delete service (.team cr) = .ok (.team cr1, err) ∧
        team.Delete service (.team cr1) = .ok (.team cr2, err) ∧
        (err = none ↔ storeErr = none ∨ IsEntityNotFoundNeo4jErr storeErr = true)) := by
  refine ⟨?_, ?_, ?_, ?_⟩
  · intro cr storeErr h
    refine ⟨{ cr with Conditions := SetConditions cr.Conditions Deleting },
      { cr with Conditions := SetConditions (SetConditions cr.Conditions Deleting) Deleting },
      errorsWrap (resourceIgnore IsEntityNotFoundNeo4jErr storeErr) "cannot delete user",
      ?_, ?_, ignored_wrap_eq_none_iff storeErr _⟩
    · simp [user.Delete, usersvc.DeleteUser, h, bind, Except.bind]
    · simp [user.Delete, usersvc.DeleteUser, h, bind, Except.bind]
  · intro cr storeErr h
    refine ⟨{ cr with Conditions := SetConditions cr.Conditions Deleting },
      { cr with Conditions := SetConditions (SetConditions cr.Conditions Deleting) Deleting },
      errorsWrap (resourceIgnore IsEntityNotFoundNeo4jErr storeErr) "cannot delete persona",
      ?_, ?_, ignored_wrap_eq_none_iff storeErr _⟩
    · simp [persona.Delete, personasvc.DeletePersona, h, bind, Except.bind]
    · simp [persona.Delete, personasvc.DeletePersona, h, bind, Except.bind]
  · intro cr storeErr h
    refine ⟨{ cr with Conditions := SetConditions cr.Conditions Deleting },
      { cr with Conditions := SetConditions (SetConditions cr.Conditions Deleting) Deleting },
      errorsWrap (resourceIgnore IsEntityNotFoundNeo4jErr storeErr) "cannot delete permissionset",
      ?_, ?_, ignored_wrap_eq_none_iff storeErr _⟩
    · simp [permissionset.Delete, permissionsetsvc.DeletePermissionSet, h, bind, Except.bind]
    · simp [permissionset.Delete, permissionsetsvc.DeletePermissionSet, h, bind, Except.bind]
  · intro cr storeErr h
    refine ⟨{ cr with Conditions := SetConditions cr.Conditions Deleting },
      { cr with Conditions := SetConditions (SetConditions cr.Conditions Deleting) Deleting },
      errorsWrap (resourceIgnore IsEntityNotFoundNeo4jErr storeErr) "cannot delete team",
      ?_, ?_, ignored_wrap_eq_none_iff storeErr _⟩
    · simp [team.Delete, teamsvc.DeleteTeam, h, bind, Except.bind]
    · simp [team.Delete, teamsvc.DeleteTeam, h, bind, Except.bind]

/-- Witness of C11: deleting a team the store no longer has succeeds. -/
theorem C11_delete_nil_iff_store_nil_or_not_found_witness :
    ∃ (cr1 cr2 : Team),
      team.Delete (writeRepository "" (some .storeEntityNotFound))
        (.team (resourceWith "t-1" (teamParams "u-1" none none))) = .ok (.team cr1, none) ∧
      team.Delete (writeRepository "" (some .storeEntityNotFound)) (.team cr1) =
        .ok (.team cr2, none) :=
  let ⟨cr1, cr2, _, h1, h2, h3⟩ :=
    (C11_delete_nil_iff_store_nil_or_not_found
      (writeRepository "" (some .storeEntityNotFound))).2.2.2
      (resourceWith "t-1" (teamParams "u-1" none none)) (some .storeEntityNotFound) rfl
  ⟨cr1, cr2, (h3.2 (Or.inr rfl)) ▸ h1, (h3.2 (Or.inr rfl)) ▸ h2⟩

/-! ## C12: Create of the controllers -/

/-- C12. For each entity kind, when the store's create returns `(uuid, err)`:
with a nil error the controller's `Create` sets the external name to `uuid` and
returns `ExternalNameAssigned = true` and a nil error; with a non-nil error it
returns the empty `ExternalCreation` and the wrapped error and leaves the
external name as it was. In both cases the condition `Creating` has been set. -/
theorem C12_create_assigns_external_name_iff_store_succeeded (service : Repository) :
    (∀ (cr : User) (uuid : String) (err : Option GoError),
      service.CreateUser cr.ForProvider.Name cr.ForProvider.Personas = .ok (uuid, err) →
      (err = none →
        user.Create service (.user cr) =
          .ok (.user { cr with
              Conditions := SetConditions cr.Conditions Creating
              ExternalName := uuid },
            { ExternalNameAssigned := true }, none)) ∧
      (err ≠ none →
        user.Create service (.user cr) =
          .ok (.user { cr with Conditions := SetConditions cr.Conditions Creating },
            { ExternalNameAssigned := false }, errorsWrap err "cannot create user"))) ∧
    (∀ (cr : Persona) (uuid : String) (err : Option GoError),
      service.CreatePersona cr.ForProvider.Name cr.ForProvider.PermissionSets = .ok (uuid, err) →
      (err = none →
        persona.Create service (.persona cr) =
          .ok (.persona { cr with
              Conditions := SetConditions cr.Conditions Creating
              ExternalName := uuid },
            { ExternalNameAssigned := true }, none)) ∧
      (err ≠ none →
        persona.Create service (.persona cr) =
          .ok (.persona { cr with Conditions := SetConditions cr.Conditions Creating },
            { ExternalNameAssigned := false }, errorsWrap err "cannot create persona"))) ∧
    (∀ (cr : PermissionSet) (uuid : String) (err : Option GoError),
      service.CreatePermissionSet cr.Name cr.ForProvider.BindTo = .ok (uuid, err) →
      (err = none →
        permissionset.Create service (.permissionSet cr) =
          .ok (.permissionSet { cr with
              Conditions := SetConditions cr.Conditions Creating
              ExternalName := uuid },
            { ExternalNameAssigned := true }, none)) ∧
      (err ≠ none →
        permissionset.Create service (.permissionSet cr) =
          .ok (.permissionSet { cr with Conditions := SetConditions cr.Conditions Creating },
            { ExternalNameAssigned := false }, errorsWrap err "cannot create permissionset"))) ∧
    (∀ (cr : Team) (uuid : String) (err : Option GoError),
      service.CreateTeam cr.ForProvider = .ok (uuid, err) →
      (err = none →
        team.Create service (.team cr) =
          .ok (.team { cr with
              Conditions := SetConditions cr.Conditions Creating
              ExternalName := uuid },
            { ExternalNameAssigned := true }, none)) ∧
      (err ≠ none →
        team.Create service (.team cr) =
          .ok (.team { cr with Conditions := SetConditions cr.Conditions Creating },
            { ExternalNameAssigned := false }, errorsWrap err "cannot create team"))) := by
  refine ⟨?_, ?_, ?_, ?_⟩
  · intro cr uuid err h
    refine ⟨fun he => ?_, fun he => ?_⟩
    · simp [user.Create, user.postCreate, usersvc.CreateUser, h, he, bind, Except.bind]
    · simp [user.Create, user.postCreate, usersvc.CreateUser, h, he, bind, Except.bind]
  · intro cr uuid err h
    refine ⟨fun he => ?_, fun he => ?_⟩
    · simp [persona.Create, persona.postCreate, personasvc.CreatePersona, h, he, bind, Except.bind]
    · simp [persona.Create, persona.postCreate, personasvc.CreatePersona, h, he, bind, Except.bind]
  · intro cr uuid err h
    refine ⟨fun he => ?_, fun he => ?_⟩
    · simp [permissionset.Create, permissionset.postCreate, permissionsetsvc.CreatePermissionSet, h, he, bind, Except.bind]
    · simp [permissionset.Create, permissionset.postCreate, permissionsetsvc.CreatePermissionSet, h, he, bind, Except.bind]
  · intro cr uuid err h
    refine ⟨fun he => ?_, fun he => ?_⟩
    · simp [team.Create, team.postCreate, teamsvc.CreateTeam, h, he, bind, Except.bind]
    · simp [team.Create, team.postCreate, teamsvc.CreateTeam, h, he, bind, Except.bind]

/-- Witness of C12: a store that creates the user under the uuid `u-7`, and a
store that fails. -/
theorem C12_create_assigns_external_name_iff_store_succeeded_witness :
    user.Create (writeRepository "u-7" none) (.user (resourceWith "" (userParams none))) =
      .ok (.user { resourceWith "" (userParams none) with
                   Conditions := [Creating]
                   ExternalName := "u-7" },
        { ExternalNameAssigned := true }, none) ∧
    user.Create (writeRepository "" (some .storeInternal))
        (.user (resourceWith "" (userParams none))) =
      .ok (.user { resourceWith "" (userParams none) with Conditions := [Creating] },
        { ExternalNameAssigned := false },
        some (.wrapped .storeInternal "cannot create user")) :=
  ⟨((C12_create_assigns_external_name_iff_store_succeeded (writeRepository "u-7" none)).1
      (resourceWith "" (userParams none)) "u-7" none rfl).1 rfl,
   ((C12_create_assigns_external_name_iff_store_succeeded
      (writeRepository "" (some .storeInternal))).1
      (resourceWith "" (userParams none)) "" (some .storeInternal) rfl).2 (by decide)⟩

/-! ## C13: the errors of the controllers -/

/-- C13. For each entity kind: `Observe` answers a store error `e` that is not
entity-not-found with `errors.Wrap(e, "cannot get <kind>")`; `Create`,
`Update` and `Delete` return `errors.Wrap(err, "cannot create|update|delete
<kind>")` for the store's error `err` (for `Delete`, when `err` is not
entity-not-found), which is nil when `err` is nil. A wrapped error prints the
message, a colon, a blank and the text of `e`, and has the cause of `e`. -/
theorem C13_store_errors_are_wrapped_with_the_operation (service : Repository) (e : GoError)
    (hne : IsEntityNotFoundNeo4jErr (some e) = false) :
    (∀ (cr : User) resp, cr.ExternalName ≠ "" →
      service.GetUser cr.ExternalName = .ok (resp, some e) →
      user.Observe service (.user cr) =
        .ok (.user cr, {}, some (.wrapped e "cannot get user"))) ∧
    (∀ (cr : User) (uuid : String) (err : Option GoError),
      service.CreateUser cr.ForProvider.Name cr.ForProvider.Personas = .ok (uuid, err) →
      ∃ (cr1 : User) (ec : ExternalCreation),
        user.Create service (.user cr) =
          .ok (.user cr1, ec, errorsWrap err "cannot create user")) ∧
    (∀ (cr : User) (err : Option GoError),
      service.UpdateUser cr.Name cr.ExternalName cr.ForProvider.Personas = .ok err →
      user.Update service (.user cr) =
        .ok (.user cr, {}, errorsWrap err "cannot update user")) ∧
    (∀ (cr : User) (err : Option GoError),
      service.DeleteUser cr.ExternalName = .ok err →
      (IsEntityNotFoundNeo4jErr err = false →
        user.Delete service (.user cr) =
          .ok (.user { cr with Conditions := SetConditions cr.Conditions Deleting },
            errorsWrap err "cannot delete user"))) ∧
    (∀ (cr : Persona) resp, cr.ExternalName ≠ "" →
      service.GetPersona cr.ExternalName = .ok (resp, some e) →
      persona.Observe service (.persona cr) =
        .ok (.persona cr, {}, some (.wrapped e "cannot get persona"))) ∧
    (∀ (cr : Persona) (uuid : String) (err : Option GoError),
      service.CreatePersona cr.ForProvider.Name cr.ForProvider.PermissionSets = .ok (uuid, err) →
      ∃ (cr1 : Persona) (ec : ExternalCreation),
        persona.Create service (.persona cr) =
          .ok (.persona cr1, ec, errorsWrap err "cannot create persona")) ∧
    (∀ (cr : Persona) (err : Option GoError),
      service.UpdatePersona cr.Name cr.ExternalName cr.ForProvider.PermissionSets = .ok err →
      persona.Update service (.persona cr) =
        .ok (.persona cr, {}, errorsWrap err "cannot update persona")) ∧
    (∀ (cr : Persona) (err : Option GoError),
      service.DeletePersona cr.ExternalName = .ok err →
      (IsEntityNotFoundNeo4jErr err = false →
        persona.Delete service (.persona cr) =
          .ok (.persona { cr with Conditions := SetConditions cr.Conditions Deleting },
            errorsWrap err "cannot delete persona"))) ∧
    (∀ (cr : PermissionSet) resp, cr.ExternalName ≠ "" →
      service.GetPermissionSet cr.ExternalName = .ok (resp, some e) →
      permissionset.Observe service (.permissionSet cr) =
        .ok (.permissionSet cr, {}, some (.wrapped e "cannot get permissionset"))) ∧
    (∀ (cr : PermissionSet) (uuid : String) (err : Option GoError),
      service.CreatePermissionSet cr.Name cr.ForProvider.BindTo = .ok (uuid, err) →
      ∃ (cr1 : PermissionSet) (ec : ExternalCreation),
        permissionset.Create service (.permissionSet cr) =
          .ok (.permissionSet cr1, ec, errorsWrap err "cannot create permissionset")) ∧
    (∀ (cr : PermissionSet) (err : Option GoError),
      service.UpdatePermissionSet cr.ExternalName cr.Name cr.ForProvider.BindTo = .ok err →
      permissionset.Update service (.permissionSet cr) =
        .ok (.permissionSet cr, {}, errorsWrap err "cannot update permissionset")) ∧
    (∀ (cr : PermissionSet) (err : Option GoError),
      service.DeletePermissionSet cr.ExternalName = .ok err →
      (IsEntityNotFoundNeo4jErr err = false →
        permissionset.Delete service (.permissionSet cr) =
          .ok (.permissionSet { cr with Conditions := SetConditions cr.Conditions Deleting },
            errorsWrap err "cannot delete permissionset"))) ∧
    (∀ (cr : Team) resp, cr.ExternalName ≠ "" →
      service.GetTeam cr.ExternalName = .ok (resp, some e) →
      team.Observe service (.team cr) =
        .ok (.team cr, {}, some (.wrapped e "cannot get team"))) ∧
    (∀ (cr : Team) (uuid : String) (err : Option GoError),
      service.CreateTeam cr.ForProvider = .ok (uuid, err) →
      ∃ (cr1 : Team) (ec : ExternalCreation),
        team.Create service (.team cr) =
          .ok (.team cr1, ec, errorsWrap err "cannot create team")) ∧
    (∀ (cr : Team) (err : Option GoError),
      service.UpdateTeam cr.ExternalName cr.ForProvider = .ok err →
      team.Update service (.team cr) =
        .ok (.team cr, {}, errorsWrap err "cannot update team")) ∧
    (∀ (cr : Team) (err : Option GoError),
      service.DeleteTeam cr.ExternalName = .ok err →
      (IsEntityNotFoundNeo4jErr err = false →
        team.Delete service (.team cr) =
          .ok (.team { cr with Conditions := SetConditions cr.Conditions Deleting },
            errorsWrap err "cannot delete team"))) ∧
    (∀ message : String,
      errorsWrap (some e) message = some (.wrapped e message) ∧
      (GoError.wrapped e message).Error = message ++ ": " ++ e.Error ∧
      errorsCause (.wrapped e message) = errorsCause e ∧
      errorsWrap none message = none) := by
  refine ⟨?_, ?_, ?_, ?_, ?_, ?_, ?_, ?_, ?_, ?_, ?_, ?_, ?_, ?_, ?_, ?_, ?_⟩
  · intro cr resp hx h
    simp [user.Observe, usersvc.GetUser, hx, h, bind, Except.bind, resourceIgnore, hne,
      errorsWrap]
  · intro cr uuid err h
    cases err with
    | none =>
      exact ⟨_, _, by
        simp [user.Create, user.postCreate, usersvc.CreateUser, h, bind, Except.bind, errorsWrap]
        exact ⟨rfl, rfl⟩⟩
    | some e1 =>
      exact ⟨_, _, by
        simp [user.Create, user.postCreate, usersvc.CreateUser, h, bind, Except.bind, errorsWrap]
        exact ⟨rfl, rfl⟩⟩
  · intro cr err h
    simp [user.Update, usersvc.UpdateUser, h, bind, Except.bind]
  · intro cr err h he
    simp [user.Delete, usersvc.DeleteUser, h, bind, Except.bind, resourceIgnore, he]
  · intro cr resp hx h
    simp [persona.Observe, personasvc.GetPersona, hx, h, bind, Except.bind, resourceIgnore, hne,
      errorsWrap]
  · intro cr uuid err h
    cases err with
    | none =>
      exact ⟨_, _, by
        simp [persona.Create, persona.postCreate, personasvc.CreatePersona, h, bind, Except.bind, errorsWrap]
        exact ⟨rfl, rfl⟩⟩
    | some e1 =>
      exact ⟨_, _, by
        simp [persona.Create, persona.postCreate, personasvc.CreatePersona, h, bind, Except.bind, errorsWrap]
        exact ⟨rfl, rfl⟩⟩
  · intro cr err h
    simp [persona.Update, personasvc.UpdatePersona, h, bind, Except.bind]
  · intro cr err h he
    simp [persona.Delete, personasvc.DeletePersona, h, bind, Except.bind, resourceIgnore, he]
  · intro cr resp hx h
    simp [permissionset.Observe, permissionsetsvc.GetPermissionSet, hx, h, bind, Except.bind, resourceIgnore, hne,
      errorsWrap]
  · intro cr uuid err h
    cases err with
    | none =>
      exact ⟨_, _, by
        simp [permissionset.Create, permissionset.postCreate, permissionsetsvc.CreatePermissionSet, h, bind, Except.bind, errorsWrap]
        exact ⟨rfl, rfl⟩⟩
    | some e1 =>
      exact ⟨_, _, by
        simp [permissionset.Create, permissionset.postCreate, permissionsetsvc.CreatePermissionSet, h, bind, Except.bind, errorsWrap]
        exact ⟨rfl, rfl⟩⟩
  · intro cr err h
    simp [permissionset.Update, permissionsetsvc.UpdatePermissionSet, h, bind, Except.bind]
  · intro cr err h he
    simp [permissionset.Delete, permissionsetsvc.DeletePermissionSet, h, bind, Except.bind, resourceIgnore, he]
  · intro cr resp hx h
    simp [team.Observe, teamsvc.GetTeam, hx, h, bind, Except.bind, resourceIgnore, hne,
      errorsWrap]
  · intro cr uuid err h
    cases err with
    | none =>
      exact ⟨_, _, by
        simp [team.Create, team.postCreate, teamsvc.CreateTeam, h, bind, Except.bind, errorsWrap]
        exact ⟨rfl, rfl⟩⟩
    | some e1 =>
      exact ⟨_, _, by
        simp [team.Create, team.postCreate, teamsvc.CreateTeam, h, bind, Except.bind, errorsWrap]
        exact ⟨rfl, rfl⟩⟩
  · intro cr err h
    simp [team.Update, teamsvc.UpdateTeam, h, bind, Except.bind]
  · intro cr err h he
    simp [team.Delete, teamsvc.DeleteTeam, h, bind, Except.bind, resourceIgnore, he]
  · intro message
    exact ⟨rfl, rfl, rfl, rfl⟩

/-- Witness of C13: an internal error of the store's update comes back as
"cannot update user: internal error occurred". -/
theorem C13_store_errors_are_wrapped_with_the_operation_witness :
    user.Update (writeRepository "" (some .storeInternal))
        (.user (resourceWith "u-1" (userParams none))) =
      .ok (.user (resourceWith "u-1" (userParams none)), {},
        some (.wrapped .storeInternal "cannot update user")) ∧
    (GoError.wrapped .storeInternal "cannot update user").Error =
      "cannot update user: internal error occurred" :=
  have h := C13_store_errors_are_wrapped_with_the_operation
    (writeRepository "" (some .storeInternal)) .storeInternal rfl
  ⟨h.2.2.1 (resourceWith "u-1" (userParams none)) (some .storeInternal) rfl, by decide⟩

/-! ## C14: the classification of storage errors -/

/-- C14, as stated, fails. A driver error with a transient code is returned
unchanged by `GetUser` and by `DeleteUser`, and it satisfies none of the three
predicates. -/
theorem C14_driver_error_satisfies_none_of_the_predicates :
    GetUser (constSession .nil
        (some (.neo4j "Neo.TransientError.General.DatabaseUnavailable" "down"))) "u-1" =
      .ok ({ References := none, Status := StatusUnavailable, NodeID := "u-1" },
        some (.neo4j "Neo.TransientError.General.DatabaseUnavailable" "down")) ∧
    DeleteUser (constStore .nil
        (some (.neo4j "Neo.TransientError.General.DatabaseUnavailable" "down"))) () "u-1" =
      (some (.neo4j "Neo.TransientError.General.DatabaseUnavailable" "down"), ()) ∧
    IsEntityNotFoundNeo4jErr
      (some (.neo4j "Neo.TransientError.General.DatabaseUnavailable" "down")) = false ∧
    IsInternalError
      (some (.neo4j "Neo.TransientError.General.DatabaseUnavailable" "down")) = false ∧
    transaction.IsConstraintViolationNeo4jErr
      (some (.neo4j "Neo.TransientError.General.DatabaseUnavailable" "down")) = .ok false := by
  refine ⟨rfl, rfl, rfl, rfl, ?_⟩
  simp [transaction.IsConstraintViolationNeo4jErr]

/-- C14, amended. No error satisfies two of the three predicates, and the
storage layer hands on what the driver reports. Update and Delete of every
kind return the error of their one write transaction unchanged. Create returns
an error exactly in these cases, always with an empty uuid: the error is that
of the first of its write transactions to fail, run in the state the earlier
ones left, or it is the plain error "no <kind> was created" when the record of
the node-creating transaction holds no string. A Get whose read transaction
fails returns the entity-not-found error when the error's text contains the
zero-records message, and otherwise that error unchanged. The entity-not-found
error satisfies `IsEntityNotFoundNeo4jErr` alone; a store error satisfies
neither `IsEntityNotFoundNeo4jErr` nor `IsInternalError`, and the
constraint-violation predicate exactly when its code is the
constraint-violation code; a plain error satisfies none of the three. -/
theorem C14_storage_errors_pass_through_in_at_most_one_kind :
    (∀ err : Option GoError,
      ¬ (IsEntityNotFoundNeo4jErr err = true ∧ IsInternalError err = true) ∧
      ¬ (IsEntityNotFoundNeo4jErr err = true ∧
          transaction.IsConstraintViolationNeo4jErr err = .ok true) ∧
      ¬ (IsInternalError err = true ∧
          transaction.IsConstraintViolationNeo4jErr err = .ok true)) ∧
    (∀ (σ : Type) (store : Store σ) (s : σ),
      (∀ n u r, (UpdateUser store s n u r).1 =
        (store.WriteTransaction s (UpdateUserTxFunc n r)).1.2) ∧
      (∀ u, (DeleteUser store s u).1 = (store.WriteTransaction s (DeleteUserTxFunc u)).1.2) ∧
      (∀ n u r, (UpdatePersona store s n u r).1 =
        (store.WriteTransaction s (UpdatePersonaTxFunc n r)).1.2) ∧
      (∀ u, (DeletePersona store s u).1 =
        (store.WriteTransaction s (DeletePersonaTxFunc u)).1.2) ∧
      (∀ u n b, (UpdatePermissionSet store s u n b).1 =
        (store.WriteTransaction s (UpdatePermissionSetTxFunc u n b.Account b.Alias
          b.AccountClass b.RoleName)).1.2) ∧
      (∀ u, (DeletePermissionSet store s u).1 =
        (store.WriteTransaction s (DeletePermissionSetTxFunc u)).1.2) ∧
      (∀ u p, (UpdateTeam store s u p).1 =
        (store.WriteTransaction s (UpdateTeamTxFunc u p.ManagedBy.User p.Members
          p.Personas)).1.2) ∧
      (∀ u, (DeleteTeam store s u).1 = (store.WriteTransaction s (DeleteTeamTxFunc u)).1.2)) ∧
    (∀ (σ : Type) (store : Store σ) (s : σ) (uuid : String) (e : GoError),
      (∀ n r, (CreateUser store s n r).1 = .ok (uuid, some e) ↔
        uuid = "" ∧
        (store.errorOf s (AddUserTxFunc n) = some e ∨
          store.errorOf s (AddUserTxFunc n) = none ∧
            (createdUuid (store.outOf s (AddUserTxFunc n)) = .ok none ∧
                e = .plain "no user was created" ∨
              ∃ id, createdUuid (store.outOf s (AddUserTxFunc n)) = .ok (some id) ∧
                store.errorOf (store.after s (AddUserTxFunc n))
                  (AddUserPersonaRelationTxFunc id r) = some e))) ∧
      (∀ n r, (CreatePersona store s n r).1 = .ok (uuid, some e) ↔
        uuid = "" ∧
        (store.errorOf s (AddPersonaTxFunc n) = some e ∨
          store.errorOf s (AddPersonaTxFunc n) = none ∧
            (createdUuid (store.outOf s (AddPersonaTxFunc n)) = .ok none ∧
                e = .plain "no persona was created" ∨
              ∃ id, createdUuid (store.outOf s (AddPersonaTxFunc n)) = .ok (some id) ∧
                store.errorOf (store.after s (AddPersonaTxFunc n))
                  (AddPersonaPermissionSetRelationTxFunc id r) = some e))) ∧
      (∀ n b, (CreatePermissionSet store s n b).1 = .ok (uuid, some e) ↔
        uuid = "" ∧
        (store.errorOf s (AddAccountTxFunc b.Account b.Alias b.AccountClass) = some e ∨
          store.errorOf s (AddAccountTxFunc b.Account b.Alias b.AccountClass) = none ∧
            (store.errorOf (store.after s (AddAccountTxFunc b.Account b.Alias b.AccountClass))
                (AddRoleTxFunc b.RoleName) = some e ∨
              store.errorOf (store.after s (AddAccountTxFunc b.Account b.Alias b.AccountClass))
                  (AddRoleTxFunc b.RoleName) = none ∧
                (store.errorOf
                    (store.after
                      (store.after s (AddAccountTxFunc b.Account b.Alias b.AccountClass))
                      (AddRoleTxFunc b.RoleName))
                    (AddPermissionSetTxFunc n) = some e ∨
                  store.errorOf
                      (store.after
                        (store.after s (AddAccountTxFunc b.Account b.Alias b.AccountClass))
                        (AddRoleTxFunc b.RoleName))
                      (AddPermissionSetTxFunc n) = none ∧
                    (createdUuid (store.outOf
                          (store.after
                            (store.after s (AddAccountTxFunc b.Account b.Alias b.AccountClass))
                            (AddRoleTxFunc b.RoleName))
                          (AddPermissionSetTxFunc n)) = .ok none ∧
                        e = .plain "no permissionset was created" ∨
                      ∃ id, createdUuid (store.outOf
                          (store.after
                            (store.after s (AddAccountTxFunc b.Account b.Alias b.AccountClass))
                            (AddRoleTxFunc b.RoleName))
                          (AddPermissionSetTxFunc n)) = .ok (some id) ∧
                        store.errorOf
                          (store.after
                            (store.after
                              (store.after s
                                (AddAccountTxFunc b.Account b.Alias b.AccountClass))
                              (AddRoleTxFunc b.RoleName))
                            (AddPermissionSetTxFunc n))
                          (AddPermissionSetAccountRoleRelationTxFunc id b.Account b.RoleName) =
                            some e))))) ∧
      (∀ p, (CreateTeam store s p).1 = .ok (uuid, some e) ↔
        uuid = "" ∧
        (store.errorOf s (AddTeamTxFunc p.Name) = some e ∨
          store.errorOf s (AddTeamTxFunc p.Name) = none ∧
            (createdUuid (store.outOf s (AddTeamTxFunc p.Name)) = .ok none ∧
                e = .plain "no team was created" ∨
              ∃ id, createdUuid (store.outOf s (AddTeamTxFunc p.Name)) = .ok (some id) ∧
                (store.errorOf (store.after s (AddTeamTxFunc p.Name))
                    (AddTeamManagedByRelationTxFunc id p.ManagedBy.User) = some e ∨
                  store.errorOf (store.after s (AddTeamTxFunc p.Name))
                      (AddTeamManagedByRelationTxFunc id p.ManagedBy.User) = none ∧
                    (store.errorOf
                        (store.after (store.after s (AddTeamTxFunc p.Name))
                          (AddTeamManagedByRelationTxFunc id p.ManagedBy.User))
                        (AddTeamMemberRelationTxFunc id p.Members) = some e ∨
                      store.errorOf
                          (store.after (store.after s (AddTeamTxFunc p.Name))
                            (AddTeamManagedByRelationTxFunc id p.ManagedBy.User))
                          (AddTeamMemberRelationTxFunc id p.Members) = none ∧
                        store.errorOf
                          (store.after
                            (store.after (store.after s (AddTeamTxFunc p.Name))
                              (AddTeamManagedByRelationTxFunc id p.ManagedBy.User))
                            (AddTeamMemberRelationTxFunc id p.Members))
                          (AddTeamPersonaRelationTxFunc id p.Personas) = some e)))))) ∧
    (∀ (session : Session) (uuid : String) (out : Dyn) (e : GoError),
      (session.ReadTransaction (GetUserTxFunc uuid) = (out, some e) →
        GetUser session uuid =
          .ok (if stringsContains e.Error noMoreRecords then
              ({ NodeID := uuid, Status := StatusDeleted, References := none },
                some .storeEntityNotFound)
            else ({ NodeID := uuid, Status := StatusUnavailable, References := none },
                some e))) ∧
      (session.ReadTransaction (GetPersonaTxFunc uuid) = (out, some e) →
        GetPersona session uuid =
          .ok (if stringsContains e.Error noMoreRecords then
              ({ NodeID := uuid, Status := StatusDeleted, References := none },
                some .storeEntityNotFound)
            else ({ NodeID := uuid, Status := StatusUnavailable, References := none },
                some e))) ∧
      (session.ReadTransaction (GetPermissionSetTxFunc uuid) = (out, some e) →
        GetPermissionSet session uuid =
          .ok (if stringsContains e.Error noMoreRecords then
              ({ Binding := emptyBinding, Status := StatusDeleted, NodeID := uuid },
                some .storeEntityNotFound)
            else ({ Binding := emptyBinding, Status := StatusUnavailable, NodeID := uuid },
                some e))) ∧
      (session.ReadTransaction (GetPersonaTxFunc uuid) = (out, some e) →
        GetTeam session uuid =
          .ok (if stringsContains e.Error noMoreRecords then
              ({ NodeID := uuid, Status := StatusDeleted, ManagedBy := "", Members := none,
                 Personas := none }, some .storeEntityNotFound)
            else ({ NodeID := uuid, Status := StatusUnavailable, ManagedBy := "",
                    Members := none, Personas := none }, some e)))) ∧
    ((IsEntityNotFoundNeo4jErr (some .storeEntityNotFound) = true ∧
        IsInternalError (some .storeEntityNotFound) = false ∧
        transaction.IsConstraintViolationNeo4jErr (some .storeEntityNotFound) ≠ .ok true) ∧
      (∀ code msg,
        IsEntityNotFoundNeo4jErr (some (.neo4j code msg)) = false ∧
        IsInternalError (some (.neo4j code msg)) = false ∧
        transaction.IsConstraintViolationNeo4jErr (some (.neo4j code msg)) =
          .ok (code == "Neo.ClientError.Schema.ConstraintViolation")) ∧
      (∀ msg,
        IsEntityNotFoundNeo4jErr (some (.plain msg)) = false ∧
        IsInternalError (some (.plain msg)) = false ∧
        transaction.IsConstraintViolationNeo4jErr (some (.plain msg)) ≠ .ok true)) := by
  refine ⟨?_, ?_, ?_, ?_,
    ⟨⟨rfl, rfl, by simp [transaction.IsConstraintViolationNeo4jErr]⟩,
      fun _ _ => ⟨rfl, rfl, rfl⟩,
      fun _ => ⟨rfl, rfl, by simp [transaction.IsConstraintViolationNeo4jErr]⟩⟩⟩
  · intro err
    rcases err with _ | e
    · simp [IsEntityNotFoundNeo4jErr, IsInternalError]
    · cases e <;>
        simp [IsEntityNotFoundNeo4jErr, IsInternalError,
          transaction.IsConstraintViolationNeo4jErr]
  · intro σ store s
    refine ⟨?_, ?_, ?_, ?_, ?_, ?_, ?_, ?_⟩
    · intro n u r
      unfold UpdateUser
      split <;> simp [*]
    · intro u
      unfold DeleteUser
      split <;> simp [*]
    · intro n u r
      rfl
    · intro u
      rfl
    · intro u n b
      unfold UpdatePermissionSet
      split <;> simp [*]
    · intro u
      unfold DeletePermissionSet
      split <;> simp [*]
    · intro u p
      unfold UpdateTeam
      split <;> simp [*]
    · intro u
      unfold DeleteTeam
      split <;> simp [*]
  · intro σ store s uuid e
    refine ⟨?_, ?_, ?_, ?_⟩
    · intro n r
      unfold CreateUser Store.errorOf Store.outOf Store.after
      repeat' split
      all_goals first
        | (simp_all; done)
        | (simp_all; aesop)
    · intro n r
      unfold CreatePersona Store.errorOf Store.outOf Store.after
      repeat' split
      all_goals first
        | (simp_all; done)
        | (simp_all; aesop)
    · intro n b
      unfold CreatePermissionSet Store.errorOf Store.outOf Store.after
      repeat' split
      all_goals first
        | (simp_all; done)
        | (simp_all; aesop)
    · intro p
      unfold CreateTeam Store.errorOf Store.outOf Store.after
      repeat' split
      all_goals first
        | (simp_all; done)
        | (simp_all; aesop)
  · intro session uuid out e
    refine ⟨?_, ?_, ?_, ?_⟩
    · intro h
      simp only [GetUser, h]
      split <;> rfl
    · intro h
      simp only [GetPersona, h]
      split <;> rfl
    · intro h
      simp only [GetPermissionSet, h]
      split <;> rfl
    · intro h
      simp only [GetTeam, h]
      split <;> rfl

/-- Witness of C14 (amended): a transient driver error comes back from
`GetUser` as it was, with the status `unavailable`, and from `CreateUser` with
an empty uuid when the node-creating transaction reports it. -/
theorem C14_storage_errors_pass_through_in_at_most_one_kind_witness :
    GetUser (constSession .nil (some (.neo4j "Neo.TransientError.X" "down"))) "u-1" =
      .ok (if stringsContains (GoError.neo4j "Neo.TransientError.X" "down").Error
            noMoreRecords then
          ({ NodeID := "u-1", Status := StatusDeleted, References := none },
            some .storeEntityNotFound)
        else ({ NodeID := "u-1", Status := StatusUnavailable, References := none },
            some (.neo4j "Neo.TransientError.X" "down"))) ∧
    (CreateUser (constStore .nil (some (.neo4j "Neo.TransientError.X" "down"))) () "alice"
        none).1 = .ok ("", some (.neo4j "Neo.TransientError.X" "down")) :=
  ⟨(C14_storage_errors_pass_through_in_at_most_one_kind.2.2.2.1
      (constSession .nil (some (.neo4j "Neo.TransientError.X" "down"))) "u-1" .nil
      (.neo4j "Neo.TransientError.X" "down")).1 rfl,
   ((C14_storage_errors_pass_through_in_at_most_one_kind.2.2.1 Unit
      (constStore .nil (some (.neo4j "Neo.TransientError.X" "down"))) () ""
      (.neo4j "Neo.TransientError.X" "down")).1 "alice" none).2 ⟨rfl, Or.inl rfl⟩⟩

/-! ## C15: the constraint-violation predicate -/

/-- C15. Evaluation of `IsConstraintViolationNeo4jErr`: on a store error it
compares the code with "Neo.ClientError.Schema.ConstraintViolation"; on every
error that is not a store error, and on the nil error, it dereferences a nil
pointer. -/
theorem C15_constraint_predicate_panics_off_store_errors :
    (∀ code msg : String,
      transaction.IsConstraintViolationNeo4jErr (some (.neo4j code msg)) =
        .ok (code == "Neo.ClientError.Schema.ConstraintViolation")) ∧
    transaction.IsConstraintViolationNeo4jErr (some (.plain "connection refused")) =
      .error .nilDereference ∧
    transaction.IsConstraintViolationNeo4jErr (some .storeEntityNotFound) =
      .error .nilDereference ∧
    transaction.IsConstraintViolationNeo4jErr (some (.txInternal "internal server error")) =
      .error .nilDereference ∧
    transaction.IsConstraintViolationNeo4jErr none = .error .nilDereference ∧
    (∀ err : Option GoError,
      (∃ code msg, err = some (.neo4j code msg)) ∨
      transaction.IsConstraintViolationNeo4jErr err = .error .nilDereference) := by
  refine ⟨fun _ _ => rfl, rfl, rfl, rfl, rfl, ?_⟩
  intro err
  rcases err with _ | e
  · exact Or.inr rfl
  · cases e <;> first | exact Or.inr rfl | exact Or.inl ⟨_, _, rfl⟩

/-! ## The statements taken as they are written -/

set_option maxRecDepth 1000000 in
/-- Of the twenty-five statements of `transaction.go`, four refer to an
undefined variable: the three relationship statements of `CreateTeam` and the
statement of `UpdateTeam`. Listed with each are the unbound operands of its
`UNWIND` clauses and the dropped variable of its `SET` clause. -/
theorem undefined_variables_of_the_statements :
    (transactionFunctions.filter fun f => refersToUndefinedVariable f.2.statement).map
        (fun f =>
          (f.1, unboundUnwinds [] (lexStatement f.2.statement),
            droppedSetVariable (lexStatement f.2.statement))) =
      [("AddTeamPersonaRelationTxFunc", ["personaRefs"], none),
       ("AddTeamMemberRelationTxFunc", ["memberRefs"], none),
       ("AddTeamManagedByRelationTxFunc", [], some "u"),
       ("UpdateTeamTxFunc", ["personaRefs", "memberRefs"], none)] := by
  decide

set_option maxRecDepth 100000 in
/-- C17. Evaluation of `UpdatePermissionSet` on a rebinding to account
`222222222222` and role `RoleB`: the one statement it submits has no `DELETE`
clause and its parameters name only the new account and role; the update
statements of Persona, User and Team do contain `DELETE`. -/
theorem C17_update_permissionset_statement_deletes_nothing :
    (UpdatePermissionSet recordingStore [] "ps-1" "ro-prod"
        { Alias := "prod", Account := "222222222222", AccountClass := "c",
          RoleName := "RoleB" }).2.map
        (fun work =>
          (stringsContains work.statement "DELETE",
           stringsContains work.statement "REMOVE",
           stringsContains work.statement "MERGE (account)<-[:DELEGATES_ACCESS_TO]-",
           work.params.lookup "accountId", work.params.lookup "roleName")) =
      [(false, false, true, some (.str "222222222222"), some (.str "RoleB"))] ∧
    stringsContains (UpdatePersonaTxFunc "" none).statement "DELETE r" = true ∧
    stringsContains (UpdateUserTxFunc "" none).statement "DELETE r" = true ∧
    stringsContains (UpdateTeamTxFunc "" "" none none).statement "DELETE x" = true := by
  refine ⟨rfl, ?_, ?_, ?_⟩ <;> decide

/-! ## C18: the member relationship of the manager -/

/-- Merging a relationship leaves the nodes as they are. -/
theorem mergeEdge_nodes (g : Graph) (e : GraphEdge) : (g.mergeEdge e).nodes = g.nodes := by
  unfold Graph.mergeEdge
  split <;> rfl

/-- Merging a relationship mints no uuid. -/
theorem mergeEdge_minted (g : Graph) (e : GraphEdge) : (g.mergeEdge e).minted = g.minted := by
  unfold Graph.mergeEdge
  split <;> rfl

/-- The relationships after a merge are the old ones and the merged one. -/
theorem mem_mergeEdge (g : Graph) (e x : GraphEdge) :
    x ∈ (g.mergeEdge e).edges ↔ x ∈ g.edges ∨ x = e := by
  unfold Graph.mergeEdge
  split
  · constructor
    · exact Or.inl
    · rintro (h | rfl)
      · exact h
      · assumption
  · simp

/-- What the relationship statement does to a graph: it succeeds, leaves the
nodes as they are, and the relationships afterwards are the old ones and, for
every reference whose two nodes are matched, the one to that reference. -/
theorem relate_spec (refs : List String) (g : Graph) (aLabel a bLabel : String)
    (edge : String → GraphEdge) :
    (g.relate aLabel a bLabel refs edge).1 = (.other, none) ∧
    (g.relate aLabel a bLabel refs edge).2.nodes = g.nodes ∧
    (g.relate aLabel a bLabel refs edge).2.minted = g.minted ∧
    ∀ x, x ∈ (g.relate aLabel a bLabel refs edge).2.edges ↔
      x ∈ g.edges ∨
        ∃ ref, ref ∈ refs ∧ g.hasNode aLabel a = true ∧ g.hasNode bLabel ref = true ∧
          x = edge ref := by
  induction refs generalizing g with
  | nil => simp [Graph.relate]
  | cons r rs ih =>
    have step : (g.relate aLabel a bLabel (r :: rs) edge) =
        ((if g.hasNode aLabel a && g.hasNode bLabel r then g.mergeEdge (edge r) else g).relate
          aLabel a bLabel rs edge) := by
      simp [Graph.relate]
    rw [step]
    by_cases h : (g.hasNode aLabel a && g.hasNode bLabel r) = true
    · rw [if_pos h]
      obtain ⟨h1, h2, h3, h4⟩ := ih (g.mergeEdge (edge r))
      have hn : ∀ l u, (g.mergeEdge (edge r)).hasNode l u = g.hasNode l u := by
        intro l u
        simp [Graph.hasNode, mergeEdge_nodes]
      refine ⟨h1, by rw [h2, mergeEdge_nodes], by rw [h3, mergeEdge_minted], ?_⟩
      intro x
      rw [h4, mem_mergeEdge]
      simp only [hn, List.mem_cons]
      simp only [Bool.and_eq_true] at h
      constructor
      · rintro ((hx | rfl) | ⟨ref, hr, ha, hb, rfl⟩)
        · exact Or.inl hx
        · exact Or.inr ⟨r, Or.inl rfl, h.1, h.2, rfl⟩
        · exact Or.inr ⟨ref, Or.inr hr, ha, hb, rfl⟩
      · rintro (hx | ⟨ref, (rfl | hr), ha, hb, rfl⟩)
        · exact Or.inl (Or.inl hx)
        · exact Or.inl (Or.inr rfl)
        · exact Or.inr ⟨ref, hr, ha, hb, rfl⟩
    · rw [if_neg h]
      obtain ⟨h1, h2, h3, h4⟩ := ih g
      refine ⟨h1, h2, h3, ?_⟩
      intro x
      rw [h4]
      simp only [List.mem_cons]
      simp only [Bool.and_eq_true, not_and] at h
      constructor
      · rintro (hx | ⟨ref, hr, ha, hb, rfl⟩)
        · exact Or.inl hx
        · exact Or.inr ⟨ref, Or.inr hr, ha, hb, rfl⟩
      · rintro (hx | ⟨ref, (rfl | hr), ha, hb, rfl⟩)
        · exact Or.inl hx
        · exact absurd hb (h ha)
        · exact Or.inr ⟨ref, hr, ha, hb, rfl⟩

/-- Reading back the strings of a list of string values. -/
theorem filterMap_str (refs : List String) :
    List.filterMap ((fun v => match v with | Value.str x => some x | _ => none) ∘ Value.str)
      refs = refs := by
  induction refs with
  | nil => rfl
  | cons r rs ih => simp [List.filterMap_cons, ih]

set_option maxRecDepth 100000 in
/-- C19, as stated, fails. In a graph without any Persona node, `CreateUser`
for a user referring to persona `p-9` returns the new uuid and a nil error; the
graph gains the User node and no relationship. In a graph holding persona
`p-1` only, `CreateUser` with references `[p-1, p-9]` succeeds too and writes
the relationship to `p-1` alone. -/
theorem C19_create_user_succeeds_with_a_missing_persona :
    emptyGraph.hasNode "Persona" "p-9" = false ∧
    CreateUser graphStore emptyGraph "alice" (some ["p-9"]) =
      (.ok ("uuid-0", none),
        { nodes := [{ label := "User", uuid := "uuid-0", name := "alice" }], edges := [],
          minted := 1 }) ∧
    CreateUser graphStore
        { nodes := [{ label := "Persona", uuid := "p-1", name := "reader" }], edges := [],
          minted := 0 }
        "alice" (some ["p-1", "p-9"]) =
      (.ok ("uuid-0", none),
        { nodes := [{ label := "Persona", uuid := "p-1", name := "reader" },
                    { label := "User", uuid := "uuid-0", name := "alice" }],
          edges := [{ kind := "GRANTED", source := "uuid-0", target := "p-1" }],
          minted := 1 }) := by
  refine ⟨rfl, ?_, ?_⟩ <;> rfl

/-- C19, amended. For every entity kind, Create returns a uuid and a nil error
exactly when each of its write transactions returns a nil error and the
record of the node-creating transaction holds that uuid; it makes no test of
its own that a referenced node exists. On the graph store, `CreateUser` and
`CreatePersona` return the new uuid and a nil error for every list of
references; the graph gains the new node, and its relationships afterwards are
the old ones and, for exactly the references that match a Persona (a
PermissionSet) node, the relationship to that node: for a reference that
matches no node no relationship is written. -/
theorem C19_create_succeeds_iff_every_transaction_succeeds :
    (∀ (σ : Type) (store : Store σ) (s : σ) (uuid : String),
      (∀ n r, (CreateUser store s n r).1 = .ok (uuid, none) ↔
        store.errorOf s (AddUserTxFunc n) = none ∧
        createdUuid (store.outOf s (AddUserTxFunc n)) = .ok (some uuid) ∧
        store.errorOf (store.after s (AddUserTxFunc n))
          (AddUserPersonaRelationTxFunc uuid r) = none) ∧
      (∀ n r, (CreatePersona store s n r).1 = .ok (uuid, none) ↔
        store.errorOf s (AddPersonaTxFunc n) = none ∧
        createdUuid (store.outOf s (AddPersonaTxFunc n)) = .ok (some uuid) ∧
        store.errorOf (store.after s (AddPersonaTxFunc n))
          (AddPersonaPermissionSetRelationTxFunc uuid r) = none) ∧
      (∀ n b, (CreatePermissionSet store s n b).1 = .ok (uuid, none) ↔
        store.errorOf s (AddAccountTxFunc b.Account b.Alias b.AccountClass) = none ∧
        store.errorOf (store.after s (AddAccountTxFunc b.Account b.Alias b.AccountClass))
          (AddRoleTxFunc b.RoleName) = none ∧
        store.errorOf
          (store.after (store.after s (AddAccountTxFunc b.Account b.Alias b.AccountClass))
            (AddRoleTxFunc b.RoleName))
          (AddPermissionSetTxFunc n) = none ∧
        createdUuid (store.outOf
          (store.after (store.after s (AddAccountTxFunc b.Account b.Alias b.AccountClass))
            (AddRoleTxFunc b.RoleName))
          (AddPermissionSetTxFunc n)) = .ok (some uuid) ∧
        store.errorOf
          (store.after
            (store.after (store.after s (AddAccountTxFunc b.Account b.Alias b.AccountClass))
              (AddRoleTxFunc b.RoleName))
            (AddPermissionSetTxFunc n))
          (AddPermissionSetAccountRoleRelationTxFunc uuid b.Account b.RoleName) = none) ∧
      (∀ p, (CreateTeam store s p).1 = .ok (uuid, none) ↔
        store.errorOf s (AddTeamTxFunc p.Name) = none ∧
        createdUuid (store.outOf s (AddTeamTxFunc p.Name)) = .ok (some uuid) ∧
        store.errorOf (store.after s (AddTeamTxFunc p.Name))
          (AddTeamManagedByRelationTxFunc uuid p.ManagedBy.User) = none ∧
        store.errorOf
          (store.after (store.after s (AddTeamTxFunc p.Name))
            (AddTeamManagedByRelationTxFunc uuid p.ManagedBy.User))
          (AddTeamMemberRelationTxFunc uuid p.Members) = none ∧
        store.errorOf
          (store.after
            (store.after (store.after s (AddTeamTxFunc p.Name))
              (AddTeamManagedByRelationTxFunc uuid p.ManagedBy.User))
            (AddTeamMemberRelationTxFunc uuid p.Members))
          (AddTeamPersonaRelationTxFunc uuid p.Personas) = none)) ∧
    (∀ (g : Graph) (n : String) (refs : Option (List String)),
      (CreateUser graphStore g n refs).1 = .ok ("uuid-" ++ toString g.minted, none) ∧
      (CreateUser graphStore g n refs).2.nodes =
        g.nodes ++ [{ label := "User", uuid := "uuid-" ++ toString g.minted, name := n }] ∧
      (∀ x, x ∈ (CreateUser graphStore g n refs).2.edges ↔
        x ∈ g.edges ∨
          ∃ ref, ref ∈ refs.getD [] ∧ g.hasNode "Persona" ref = true ∧
            x = { kind := "GRANTED", source := "uuid-" ++ toString g.minted,
                  target := ref })) ∧
    (∀ (g : Graph) (n : String) (refs : Option (List String)),
      (CreatePersona graphStore g n refs).1 = .ok ("uuid-" ++ toString g.minted, none) ∧
      (CreatePersona graphStore g n refs).2.nodes =
        g.nodes ++ [{ label := "Persona", uuid := "uuid-" ++ toString g.minted, name := n }] ∧
      (∀ x, x ∈ (CreatePersona graphStore g n refs).2.edges ↔
        x ∈ g.edges ∨
          ∃ ref, ref ∈ refs.getD [] ∧ g.hasNode "PermissionSet" ref = true ∧
            x = { kind := "ATTACHED_TO", source := ref,
                  target := "uuid-" ++ toString g.minted })) := by
  refine ⟨fun σ store s uuid => ⟨?_, ?_, ?_, ?_⟩, ?_, ?_⟩
  · intro n r
    unfold CreateUser Store.errorOf Store.outOf Store.after
    repeat' split
    all_goals first
      | (simp_all; done)
      | (simp_all; rintro rfl; simp_all)
  · intro n r
    unfold CreatePersona Store.errorOf Store.outOf Store.after
    repeat' split
    all_goals first
      | (simp_all; done)
      | (simp_all; rintro rfl; simp_all)
  · intro n b
    unfold CreatePermissionSet Store.errorOf Store.outOf Store.after
    repeat' split
    all_goals first
      | (simp_all; done)
      | (simp_all; rintro rfl; simp_all)
  · intro p
    unfold CreateTeam Store.errorOf Store.outOf Store.after
    repeat' split
    all_goals first
      | (simp_all; done)
      | (simp_all; rintro rfl; simp_all)
  · intro g n refs
    have hrun : CreateUser graphStore g n refs =
        ((.ok ("uuid-" ++ toString g.minted, none)),
          ((g.createNode "User" n).2.relate "User" ("uuid-" ++ toString g.minted) "Persona"
            (refs.getD [])
            fun ref => { kind := "GRANTED", source := "uuid-" ++ toString g.minted,
                         target := ref }).2) := by
      cases refs <;>
        simp [CreateUser, graphStore, AddUserTxFunc, AddUserPersonaRelationTxFunc,
          AddPersonaTxFunc, AddPersonaPermissionSetRelationTxFunc, paramString, paramStrings,
          List.lookup, Graph.createNode, Graph.relate, createdUuid, valuesAt, stringsValue,
          filterMap_str]
    obtain ⟨_, h2, _, h4⟩ := relate_spec (refs.getD []) (g.createNode "User" n).2 "User"
      ("uuid-" ++ toString g.minted) "Persona"
      fun ref => { kind := "GRANTED", source := "uuid-" ++ toString g.minted, target := ref }
    have hu : (g.createNode "User" n).2.hasNode "User" ("uuid-" ++ toString g.minted) =
        true := by
      simp [Graph.createNode, Graph.hasNode]
    have hp : ∀ ref, (g.createNode "User" n).2.hasNode "Persona" ref =
        g.hasNode "Persona" ref := by
      intro ref
      simp [Graph.createNode, Graph.hasNode]
    rw [hrun]
    refine ⟨rfl, h2, ?_⟩
    intro x
    rw [h4]
    simp only [hu, hp, true_and]
    rfl
  · intro g n refs
    have hrun : CreatePersona graphStore g n refs =
        ((.ok ("uuid-" ++ toString g.minted, none)),
          ((g.createNode "Persona" n).2.relate "Persona" ("uuid-" ++ toString g.minted)
            "PermissionSet" (refs.getD [])
            fun ref => { kind := "ATTACHED_TO", source := ref,
                         target := "uuid-" ++ toString g.minted }).2) := by
      cases refs <;>
        simp [CreatePersona, graphStore, AddUserTxFunc, AddUserPersonaRelationTxFunc,
          AddPersonaTxFunc, AddPersonaPermissionSetRelationTxFunc, paramString, paramStrings,
          List.lookup, Graph.createNode, Graph.relate, createdUuid, valuesAt, stringsValue,
          filterMap_str]
    obtain ⟨_, h2, _, h4⟩ := relate_spec (refs.getD []) (g.createNode "Persona" n).2 "Persona"
      ("uuid-" ++ toString g.minted) "PermissionSet"
      fun ref => { kind := "ATTACHED_TO", source := ref,
                   target := "uuid-" ++ toString g.minted }
    have hu : (g.createNode "Persona" n).2.hasNode "Persona" ("uuid-" ++ toString g.minted) =
        true := by
      simp [Graph.createNode, Graph.hasNode]
    have hp : ∀ ref, (g.createNode "Persona" n).2.hasNode "PermissionSet" ref =
        g.hasNode "PermissionSet" ref := by
      intro ref
      simp [Graph.createNode, Graph.hasNode]
    rw [hrun]
    refine ⟨rfl, h2, ?_⟩
    intro x
    rw [h4]
    simp only [hu, hp, true_and]
    rfl

/-- Witness of C19 (amended): on a store whose every transaction succeeds
with a record holding `u-7`, `CreateTeam` returns `u-7` and a nil error; on
the graph store without any Persona node, the relationship from the new user
to the persona `p-9` is not among the relationships after `CreateUser`. -/
theorem C19_create_succeeds_iff_every_transaction_succeeds_witness :
    (CreateTeam (constStore (.record [.str "u-7"]) none) ()
      (teamParams "u-1" (some ["u-2"]) (some ["p-9"]))).1 = .ok ("u-7", none) ∧
    ¬ ({ kind := "GRANTED", source := "uuid-0", target := "p-9" } ∈
        (CreateUser graphStore emptyGraph "alice" (some ["p-9"])).2.edges) :=
  ⟨((C19_create_succeeds_iff_every_transaction_succeeds.1 Unit
      (constStore (.record [.str "u-7"]) none) () "u-7").2.2.2
      (teamParams "u-1" (some ["u-2"]) (some ["p-9"]))).2 ⟨rfl, rfl, rfl, rfl, rfl⟩,
   fun h =>
    (((C19_create_succeeds_iff_every_transaction_succeeds.2.1 emptyGraph "alice"
        (some ["p-9"])).2.2 _).1 h).elim (fun hold => by simp [emptyGraph] at hold)
      (fun ⟨_, _, hnode, _⟩ => by simp [emptyGraph, Graph.hasNode] at hnode)⟩

/-! ## C20: how Update selects its node -/

set_option maxRecDepth 100000 in
/-- C20. Evaluation of `UpdateUser` and `UpdatePersona`: the result does not
depend on the uuid argument; the work submitted for user `alice` and uuid
`uuid-1` matches the node by `name: $userName`, carries the keys
`personaUuids` and `userName` only, and binds `userName` to `alice`; two calls
that differ in the name alone submit different bindings. -/
theorem C20_update_selects_the_node_by_name :
    (∀ (σ : Type) (store : Store σ) (s : σ) (name uuid1 uuid2 : String)
        (refs : Option (List String)),
      UpdateUser store s name uuid1 refs = UpdateUser store s name uuid2 refs ∧
      UpdatePersona store s name uuid1 refs = UpdatePersona store s name uuid2 refs) ∧
    (UpdateUser recordingStore [] "alice" "uuid-1" (some ["p-1"])).2.map
        (fun work =>
          (stringsContains work.statement "MATCH (u:User \x7bname: $userName\x7d)",
           stringsContains work.statement "uuid: $userUuid",
           work.params.map Prod.fst, work.params.lookup "userName")) =
      [(true, false, ["personaUuids", "userName"], some (.str "alice"))] ∧
    (UpdatePersona recordingStore [] "reader" "uuid-2" (some ["ps-1"])).2.map
        (fun work =>
          (stringsContains work.statement "MATCH (p:Persona \x7bname: $personaName\x7d)",
           stringsContains work.statement "uuid: $personaUuid",
           work.params.map Prod.fst, work.params.lookup "personaName")) =
      [(true, false, ["permissionSetUuids", "personaName"], some (.str "reader"))] ∧
    (UpdateUser recordingStore [] "bob" "uuid-1" (some ["p-1"])).2.map
        (fun work => work.params.lookup "userName") = [some (.str "bob")] := by
  refine ⟨fun σ store s name uuid1 uuid2 refs => ⟨rfl, rfl⟩, rfl, rfl, rfl⟩

/-! ## C21: statements are constants -/

/-- C21. For every transaction function of `transaction.go`, the statement
text is the same for any two argument tuples, and the parameter map binds
each of its keys to an argument of the function (a string, or a list of
strings for a `[]string`). -/
theorem C21_statement_text_is_independent_of_the_arguments :
    (∀ (userUuid : String) (userUuid2 : String),
      (GetUserTxFunc userUuid).statement = (GetUserTxFunc userUuid2).statement ∧
      (GetUserTxFunc userUuid).params =
        [("userUuid", .str userUuid)]) ∧
    (∀ (personaUuid : String) (personaUuid2 : String),
      (GetPersonaTxFunc personaUuid).statement = (GetPersonaTxFunc personaUuid2).statement ∧
      (GetPersonaTxFunc personaUuid).params =
        [("personaUuid", .str personaUuid)]) ∧
    (∀ (uuid : String) (uuid2 : String),
      (GetPermissionSetTxFunc uuid).statement = (GetPermissionSetTxFunc uuid2).statement ∧
      (GetPermissionSetTxFunc uuid).params =
        [("uuid", .str uuid)]) ∧
    (∀ (teamUuid : String) (teamUuid2 : String),
      (GetTeamTxFunc teamUuid).statement = (GetTeamTxFunc teamUuid2).statement ∧
      (GetTeamTxFunc teamUuid).params =
        [("teamUuid", .str teamUuid)]) ∧
    (∀ (teamName : String) (teamName2 : String),
      (AddTeamTxFunc teamName).statement = (AddTeamTxFunc teamName2).statement ∧
      (AddTeamTxFunc teamName).params =
        [("teamName", .str teamName)]) ∧
    (∀ (userName : String) (userName2 : String),
      (AddUserTxFunc userName).statement = (AddUserTxFunc userName2).statement ∧
      (AddUserTxFunc userName).params =
        [("userName", .str userName)]) ∧
    (∀ (name : String) (name2 : String),
      (AddPersonaTxFunc name).statement = (AddPersonaTxFunc name2).statement ∧
      (AddPersonaTxFunc name).params =
        [("name", .str name)]) ∧
    (∀ (name : String) (name2 : String),
      (AddPermissionSetTxFunc name).statement = (AddPermissionSetTxFunc name2).statement ∧
      (AddPermissionSetTxFunc name).params =
        [("name", .str name)]) ∧
    (∀ (accountId : String) (accountAlias : String) (accountClass : String) (accountId2 : String) (accountAlias2 : String) (accountClass2 : String),
      (AddAccountTxFunc accountId accountAlias accountClass).statement = (AddAccountTxFunc accountId2 accountAlias2 accountClass2).statement ∧
      (AddAccountTxFunc accountId accountAlias accountClass).params =
        [("accountId", .str accountId), ("accountAlias", .str accountAlias), ("accountClass", .str accountClass)]) ∧
    (∀ (name : String) (name2 : String),
      (AddRoleTxFunc name).statement = (AddRoleTxFunc name2).statement ∧
      (AddRoleTxFunc name).params =
        [("roleName", .str name)]) ∧
    (∀ (userUuid : String) (userUuid2 : String),
      (DeleteUserTxFunc userUuid).statement = (DeleteUserTxFunc userUuid2).statement ∧
      (DeleteUserTxFunc userUuid).params =
        [("userUuid", .str userUuid)]) ∧
    (∀ (personaUuid : String) (personaUuid2 : String),
      (DeletePersonaTxFunc personaUuid).statement = (DeletePersonaTxFunc personaUuid2).statement ∧
      (DeletePersonaTxFunc personaUuid).params =
        [("personaUuid", .str personaUuid)]) ∧
    (∀ (teamUuid : String) (teamUuid2 : String),
      (DeleteTeamTxFunc teamUuid).statement = (DeleteTeamTxFunc teamUuid2).statement ∧
      (DeleteTeamTxFunc teamUuid).params =
        [("teamUuid", .str teamUuid)]) ∧
    (∀ (teamUuid : String) (personaRefs : Option (List String)) (teamUuid2 : String) (personaRefs2 : Option (List String)),
      (AddTeamPersonaRelationTxFunc teamUuid personaRefs).statement = (AddTeamPersonaRelationTxFunc teamUuid2 personaRefs2).statement ∧
      (AddTeamPersonaRelationTxFunc teamUuid personaRefs).params =
        [("teamUuid", .str teamUuid), ("personaRefs", stringsValue personaRefs)]) ∧
    (∀ (teamUuid : String) (memberRefs : Option (List String)) (teamUuid2 : String) (memberRefs2 : Option (List String)),
      (AddTeamMemberRelationTxFunc teamUuid memberRefs).statement = (AddTeamMemberRelationTxFunc teamUuid2 memberRefs2).statement ∧
      (AddTeamMemberRelationTxFunc teamUuid memberRefs).params =
        [("teamUuid", .str teamUuid), ("memberRefs", stringsValue memberRefs)]) ∧
    (∀ (teamUuid : String) (managerUuid : String) (teamUuid2 : String) (managerUuid2 : String),
      (AddTeamManagedByRelationTxFunc teamUuid managerUuid).statement = (AddTeamManagedByRelationTxFunc teamUuid2 managerUuid2).statement ∧
      (AddTeamManagedByRelationTxFunc teamUuid managerUuid).params =
        [("teamUuid", .str teamUuid), ("managerUuid", .str managerUuid)]) ∧
    (∀ (teamUuid : String) (managerUuid : String) (teamUuid2 : String) (managerUuid2 : String),
      (AddManagerPersonaNoInheritRelationTxFunc teamUuid managerUuid).statement = (AddManagerPersonaNoInheritRelationTxFunc teamUuid2 managerUuid2).statement ∧
      (AddManagerPersonaNoInheritRelationTxFunc teamUuid managerUuid).params =
        [("teamUuid", .str teamUuid), ("managerUuid", .str managerUuid)]) ∧
    (∀ (teamUuid : String) (manager : String) (personaRefs : Option (List String)) (memberRefs : Option (List String)) (teamUuid2 : String) (manager2 : String) (personaRefs2 : Option (List String)) (memberRefs2 : Option (List String)),
      (UpdateTeamTxFunc teamUuid manager personaRefs memberRefs).statement = (UpdateTeamTxFunc teamUuid2 manager2 personaRefs2 memberRefs2).statement ∧
      (UpdateTeamTxFunc teamUuid manager personaRefs memberRefs).params =
        [("teamUuid", .str teamUuid), ("memberRefs", stringsValue memberRefs), ("personaRefs", stringsValue personaRefs), ("managerUuid", .str manager)]) ∧
    (∀ (permissionSetUuid : String) (accountId : String) (roleName : String) (permissionSetUuid2 : String) (accountId2 : String) (roleName2 : String),
      (AddPermissionSetAccountRoleRelationTxFunc permissionSetUuid accountId roleName).statement = (AddPermissionSetAccountRoleRelationTxFunc permissionSetUuid2 accountId2 roleName2).statement ∧
      (AddPermissionSetAccountRoleRelationTxFunc permissionSetUuid accountId roleName).params =
        [("permissionSetUuid", .str permissionSetUuid), ("accountId", .str accountId), ("roleName", .str roleName)]) ∧
    (∀ (userUuid : String) (personaRefs : Option (List String)) (userUuid2 : String) (personaRefs2 : Option (List String)),
      (AddUserPersonaRelationTxFunc userUuid personaRefs).statement = (AddUserPersonaRelationTxFunc userUuid2 personaRefs2).statement ∧
      (AddUserPersonaRelationTxFunc userUuid personaRefs).params =
        [("userUuid", .str userUuid), ("personaRefs", stringsValue personaRefs)]) ∧
    (∀ (personaUuid : String) (permissionSetRefs : Option (List String)) (personaUuid2 : String) (permissionSetRefs2 : Option (List String)),
      (AddPersonaPermissionSetRelationTxFunc personaUuid permissionSetRefs).statement = (AddPersonaPermissionSetRelationTxFunc personaUuid2 permissionSetRefs2).statement ∧
      (AddPersonaPermissionSetRelationTxFunc personaUuid permissionSetRefs).params =
        [("personaUuid", .str personaUuid), ("permissionSetRefs", stringsValue permissionSetRefs)]) ∧
    (∀ (permissionSetUuid : String) (name : String) (accountId : String) (accountAlias : String) (accountClass : String) (roleName : String) (permissionSetUuid2 : String) (name2 : String) (accountId2 : String) (accountAlias2 : String) (accountClass2 : String) (roleName2 : String),
      (UpdatePermissionSetTxFunc permissionSetUuid name accountId accountAlias accountClass roleName).statement = (UpdatePermissionSetTxFunc permissionSetUuid2 name2 accountId2 accountAlias2 accountClass2 roleName2).statement ∧
      (UpdatePermissionSetTxFunc permissionSetUuid name accountId accountAlias accountClass roleName).params =
        [("permissionSetUuid", .str permissionSetUuid), ("name", .str name), ("accountId", .str accountId), ("accountAlias", .str accountAlias), ("accountClass", .str accountClass), ("roleName", .str roleName)]) ∧
    (∀ (personaName : String) (permissionSetRefs : Option (List String)) (personaName2 : String) (permissionSetRefs2 : Option (List String)),
      (UpdatePersonaTxFunc personaName permissionSetRefs).statement = (UpdatePersonaTxFunc personaName2 permissionSetRefs2).statement ∧
      (UpdatePersonaTxFunc personaName permissionSetRefs).params =
        [("permissionSetUuids", stringsValue permissionSetRefs), ("personaName", .str personaName)]) ∧
    (∀ (userName : String) (personaRefs : Option (List String)) (userName2 : String) (personaRefs2 : Option (List String)),
      (UpdateUserTxFunc userName personaRefs).statement = (UpdateUserTxFunc userName2 personaRefs2).statement ∧
      (UpdateUserTxFunc userName personaRefs).params =
        [("personaUuids", stringsValue personaRefs), ("userName", .str userName)]) ∧
    (∀ (uuid : String) (uuid2 : String),
      (DeletePermissionSetTxFunc uuid).statement = (DeletePermissionSetTxFunc uuid2).statement ∧
      (DeletePermissionSetTxFunc uuid).params =
        [("uuid", .str uuid)]) := by
  refine ⟨?_, ?_, ?_, ?_, ?_, ?_, ?_, ?_, ?_, ?_, ?_, ?_, ?_, ?_, ?_, ?_, ?_, ?_, ?_, ?_, ?_, ?_, ?_, ?_, ?_⟩ <;> intros <;> exact ⟨rfl, rfl⟩

/-! ## C24: the query GetTeam runs -/

set_option maxRecDepth 100000 in
/-- C24. Evaluation of `GetTeam`: the work it hands to the session is the
Persona read query, whose text differs from the Team read query; the result
depends on the session's answer to the Persona query alone; on a session that
answers the Team query with the three columns members, manager, personas and
the Persona query with its one column, `GetTeam` panics with an index out of
range instead of returning the three columns. -/
theorem C24_get_team_runs_the_persona_query :
    GetTeam probeSession "t-1" =
      .ok ({ ManagedBy := "", Members := none, Personas := none, NodeID := "t-1",
             Status := StatusUnavailable },
        some (.plain (GetPersonaTxFunc "t-1").statement)) ∧
    (GetPersonaTxFunc "t-1").statement ≠ (GetTeamTxFunc "t-1").statement ∧
    (∀ (session : Session) (uuid : String),
      GetTeam session uuid =
        GetTeam (constSession (session.ReadTransaction (GetPersonaTxFunc uuid)).1
          (session.ReadTransaction (GetPersonaTxFunc uuid)).2) uuid) ∧
    GetTeam (teamQuerySession [.list [.str "u-2"], .str "u-1", .list [.str "p-1"]] [.list []])
      "t-1" = .error .indexOutOfRange := by
  refine ⟨rfl, by decide, fun _ _ => rfl, rfl⟩

/-! ## C25: the parameters of the team update -/

set_option maxRecDepth 100000 in
/-- C25. Evaluation of `UpdateTeam` for every uuid and every team parameters
`p`: the one work it submits binds `memberRefs` to `p.Personas`, `personaRefs`
to `p.Members`, and `managerUuid` to `p.ManagedBy.User`; its statement unwinds
`memberRefs` for the `MEMBER_OF` edges and `personaRefs` for the `INHERITS`
edges. For members `[u-2]` and personas `[p-1]` the list bound to `memberRefs`
is `[p-1]`. -/
theorem C25_update_team_swaps_members_and_personas :
    (∀ (uuid : String) (p : TeamParameters),
      (UpdateTeam recordingStore [] uuid p).2.map
          (fun work =>
            (work.params.lookup "memberRefs", work.params.lookup "personaRefs",
             work.params.lookup "managerUuid", work.params.lookup "teamUuid")) =
        [(some (stringsValue p.Personas), some (stringsValue p.Members),
          some (.str p.ManagedBy.User), some (.str uuid))]) ∧
    (UpdateTeam recordingStore [] "t-1" (teamParams "u-1" (some ["u-2"]) (some ["p-1"]))).2.map
        (fun work =>
          (work.params.lookup "memberRefs",
           stringsContains work.statement "UNWIND memberRefs AS member",
           stringsContains work.statement "MATCH (u:User \x7buuid: member\x7d)",
           stringsContains work.statement "MERGE (t)<-[:MEMBER_OF]-(u)")) =
      [(some (.list [.str "p-1"]), true, true, true)] := by
  refine ⟨fun _ _ => rfl, ?_⟩
  rfl

/-! ## C26: the relationship kind of a persona assignment -/

set_option maxRecDepth 100000 in
/-- C26. Evaluation of the statements of a User's persona assignments: the
statement `CreateUser` submits merges `[:GRANTED]`; the statement `UpdateUser`
submits deletes and merges `[:DESIGNATED]` and does not mention `GRANTED`. -/
theorem C26_update_user_rewrites_designated_not_granted :
    (CreateUser (faultyStore (fun _ => none) (fun _ => .record [.str "u-7"])) [] "alice"
        (some ["p-1"])).2.map
        (fun work =>
          (stringsContains work.statement "CREATE (u:User",
           stringsContains work.statement "MERGE (u)-[:GRANTED]->(p)",
           stringsContains work.statement "DESIGNATED")) =
      [(true, false, false), (false, true, false)] ∧
    (UpdateUser recordingStore [] "alice" "u-7" (some ["p-1"])).2.map
        (fun work =>
          (stringsContains work.statement "-[r:DESIGNATED]->(:Persona)\n\t\tDELETE r",
           stringsContains work.statement "MERGE (u)-[:DESIGNATED]->(p)",
           stringsContains work.statement "GRANTED")) =
      [(true, true, false)] := by
  refine ⟨?_, ?_⟩ <;> decide

/-! ## C22: what a failed Create leaves committed -/

/-- C27. Evaluation of the four Get operations on a read transaction that
succeeds with a value that is neither nil nor a record: `GetUser` returns
status `available` together with a non-nil internal error; `GetPersona`,
`GetPermissionSet` and `GetTeam` return `unavailable` with that error. -/
theorem C27_get_user_fallthrough_is_available_with_an_error :
    GetUser (constSession .other none) "u-1" =
      .ok ({ References := none, Status := StatusAvailable, NodeID := "u-1" },
        some (.txInternal "internal server error")) ∧
    GetPersona (constSession .other none) "u-1" =
      .ok ({ References := none, Status := StatusUnavailable, NodeID := "u-1" },
        some (.txInternal "internal server error")) ∧
    GetPermissionSet (constSession .other none) "u-1" =
      .ok ({ Binding := emptyBinding, Status := StatusUnavailable, NodeID := "u-1" },
        some (.txInternal "internal server error")) ∧
    GetTeam (constSession .other none) "u-1" =
      .ok ({ ManagedBy := "", Members := none, Personas := none, NodeID := "u-1",
             Status := StatusUnavailable }, some (.txInternal "internal server error")) ∧
    StatusAvailable ≠ StatusUnavailable := by
  refine ⟨rfl, rfl, rfl, rfl, by decide⟩

/-! ## C28: named parameters and parameter keys -/

set_option maxRecDepth 1000000 in
/-- C28. Evaluation over all twenty-five transaction functions: the functions
whose parameter keys and `$name`s differ are `AddTeamPersonaRelationTxFunc`
(key `personaRefs` never written as `$personaRefs`),
`AddTeamMemberRelationTxFunc` (key `memberRefs`) and `UpdateTeamTxFunc` (keys
`memberRefs` and `personaRefs`); no statement uses a `$name` without a value.
The user and persona relation statements do write `$personaRefs` and
`$permissionSetRefs`. -/
theorem C28_team_statements_never_reference_their_list_parameters :
    transactionFunctions.length = 25 ∧
    (transactionFunctions.filter
        (fun f => !(unusedKeys f.2).isEmpty || !(unboundNames f.2).isEmpty)).map
        (fun f => (f.1, unusedKeys f.2, unboundNames f.2)) =
      [("AddTeamPersonaRelationTxFunc", ["personaRefs"], []),
       ("AddTeamMemberRelationTxFunc", ["memberRefs"], []),
       ("UpdateTeamTxFunc", ["memberRefs", "personaRefs"], [])] ∧
    referencedParameters (UpdateTeamTxFunc "" "" none none) = ["teamUuid", "managerUuid"] ∧
    parameterKeys (UpdateTeamTxFunc "" "" none none) =
      ["teamUuid", "memberRefs", "personaRefs", "managerUuid"] ∧
    referencedParameters (AddUserPersonaRelationTxFunc "" none) = ["personaRefs", "userUuid"] ∧
    referencedParameters (AddPersonaPermissionSetRelationTxFunc "" none) =
      ["permissionSetRefs", "personaUuid"] := by
  refine ⟨by decide, ?_, ?_, ?_, ?_, ?_⟩ <;> decide

/-! ## C23: what Observe records on the resource -/

/-- C23. Evaluation of the four `Observe` on a Get that returns the status
`unavailable` and a nil error: each records the NodeID and the status in the
observation; the User, Persona and Team controllers set the condition
`Unavailable`, the PermissionSet controller sets `Available`. -/
theorem C23_permissionset_observe_sets_available_on_unavailable_status :
    permissionset.Observe (statusRepository StatusUnavailable)
        (.permissionSet (resourceWith "ps-1" { BindTo := emptyBinding })) =
      .ok (.permissionSet { resourceWith "ps-1" { BindTo := emptyBinding } with
              AtProvider := { NodeID := "ps-1", Status := StatusUnavailable }
              Conditions := [Available] },
        { ResourceExists := true, ResourceUpToDate := true, Diff := "" }, none) ∧
    user.Observe (statusRepository StatusUnavailable)
        (.user (resourceWith "u-1" (userParams none))) =
      .ok (.user { resourceWith "u-1" (userParams none) with
              AtProvider := { NodeID := "u-1", Status := StatusUnavailable }
              Conditions := [Unavailable] },
        { ResourceExists := true, ResourceUpToDate := true, Diff := "" }, none) ∧
    persona.Observe (statusRepository StatusUnavailable)
        (.persona (resourceWith "p-1" (personaParams none))) =
      .ok (.persona { resourceWith "p-1" (personaParams none) with
              AtProvider := { NodeID := "p-1", Status := StatusUnavailable }
              Conditions := [Unavailable] },
        { ResourceExists := true, ResourceUpToDate := true, Diff := "" }, none) ∧
    team.Observe (statusRepository StatusUnavailable)
        (.team (resourceWith "t-1" (teamParams "" none none))) =
      .ok (.team { resourceWith "t-1" (teamParams "" none none) with
              AtProvider := { NodeID := "t-1", Status := StatusUnavailable }
              Conditions := [Unavailable] },
        { ResourceExists := true, ResourceUpToDate := true, Diff := "" }, none) ∧
    Available ≠ Unavailable := by
  refine ⟨rfl, rfl, rfl, rfl, by decide⟩

/-! ## C29: a nil desired list against an empty observed list -/

/-- C29, as stated, fails. For a team that declares no members, whose store
record has an empty member list, the manager `u-1` and one persona, `GetTeam`
reports the team as available with a non-nil empty member list, and `Observe`
reports it as not up to date with a non-empty diff although the managers
match. -/
theorem C29_nil_members_against_empty_members_is_drift :
    GetTeam (constSession (.record [.list [], .str "u-1", .list [.str "p-1"]]) none) "t-1" =
      .ok ({ ManagedBy := "u-1", Members := some [], Personas := some ["p-1"], NodeID := "t-1",
             Status := StatusAvailable }, none) ∧
    reportedUpToDate (team.Observe
      (neo4jGetRepository (constSession (.record [.list [], .str "u-1", .list [.str "p-1"]]) none))
      (.team (resourceWith "t-1" (teamParams "u-1" none (some ["p-1"]))))) = some false ∧
    reportedDiff (team.Observe
      (neo4jGetRepository (constSession (.record [.list [], .str "u-1", .list [.str "p-1"]]) none))
      (.team (resourceWith "t-1" (teamParams "u-1" none (some ["p-1"]))))) ≠ some "" := by
  refine ⟨rfl, ?_, ?_⟩ <;> decide

/-- Two strings concatenate to the empty string exactly when both are empty. -/
theorem append_eq_empty_iff (a b : String) : a ++ b = "" ↔ a = "" ∧ b = "" := by
  constructor
  · intro h
    have hd := congrArg String.data h
    simp only [String.data_append] at hd
    have ha : a.data = [] := (List.append_eq_nil.mp hd).1
    have hb : b.data = [] := (List.append_eq_nil.mp hd).2
    exact ⟨String.ext ha, String.ext hb⟩
  · rintro ⟨rfl, rfl⟩
    rfl

/-- C29, amended. For Team, when the desired record declares no members (a
nil list) and Get succeeds with an empty, non-nil member list, `Observe`
reports `ResourceUpToDate = false` and a non-empty `Diff`, whether or not the
managers match; and `GetTeam` returns such an empty, non-nil member list for
every record with no member that has a persona or a manager. -/
theorem C29_nil_desired_members_differ_from_empty_observed_members :
    (∀ (service : Repository) (cr : Team) (resp : GetTeamResponse), cr.ExternalName ≠ "" →
      service.GetTeam cr.ExternalName = .ok (resp, none) →
      cr.ForProvider.Members = none → resp.Members = some [] →
      ∃ mg obs, team.Observe service (.team cr) = .ok (mg, obs, none) ∧
        obs.ResourceUpToDate = false ∧ obs.Diff ≠ "") ∧
    (∀ (session : Session) (uuid : String) (manager : Value) (personas rest : List Value),
      (personas ≠ [] ∨ stringOrZero manager ≠ "") →
      session.ReadTransaction (GetPersonaTxFunc uuid) =
        (.record (.list [] :: manager :: .list personas :: rest), none) →
      GetTeam session uuid =
        .ok ({ ManagedBy := stringOrZero manager, Members := some [],
               Personas := some (personas.map Sprint), NodeID := uuid,
               Status := StatusAvailable }, none)) := by
  refine ⟨?_, ?_⟩
  · intro service cr resp hx h hd ho
    simp only [team.Observe, teamsvc.GetTeam, hx, h, bind, Except.bind, if_false, ne_eq,
      not_true_eq_false]
    refine ⟨_, _, rfl, ?_, ?_⟩
    · simp [cmpEqual, hd, ho]
    · intro hc
      have h1 := ((append_eq_empty_iff _ _).mp hc).1
      rw [cmpDiff_eq_empty_iff, hd, ho] at h1
      exact absurd h1 (by simp)
  · intro session uuid manager personas rest hne h
    simp [GetTeam, h, valuesAt, sliceOrZero, sprintAll, bind, Except.bind]
    intro hp hg
    rcases hne with h1 | h1
    · exact absurd hp h1
    · exact absurd hg h1

/-- Witness of C29 (amended): a team without declared members observed with
an empty member list. -/
theorem C29_nil_desired_members_differ_from_empty_observed_members_witness :
    ∃ mg obs, team.Observe (teamRepository "u-1" (some []) (some ["p-1"]))
        (.team (resourceWith "t-1" (teamParams "u-1" none (some ["p-1"])))) =
        .ok (mg, obs, none) ∧
      obs.ResourceUpToDate = false ∧ obs.Diff ≠ "" :=
  C29_nil_desired_members_differ_from_empty_observed_members.1
    (teamRepository "u-1" (some []) (some ["p-1"]))
    (resourceWith "t-1" (teamParams "u-1" none (some ["p-1"])))
    { ManagedBy := "u-1", Members := some [], Personas := some ["p-1"], NodeID := "t-1",
      Status := StatusAvailable }
    (by decide) rfl rfl rfl

/-! ## C30: verdict and diff agree -/

/-- C30. For each entity kind, whenever Get succeeds, `Observe` returns an
observation whose `ResourceUpToDate` is true exactly when its `Diff` is the
empty string. -/
theorem C30_up_to_date_iff_diff_is_empty (service : Repository) :
    (∀ (cr : User) resp, cr.ExternalName ≠ "" →
      service.GetUser cr.ExternalName = .ok (resp, none) →
      ∃ mg obs, user.Observe service (.user cr) = .ok (mg, obs, none) ∧
        (obs.ResourceUpToDate = true ↔ obs.Diff = "")) ∧
    (∀ (cr : Persona) resp, cr.ExternalName ≠ "" →
      service.GetPersona cr.ExternalName = .ok (resp, none) →
      ∃ mg obs, persona.Observe service (.persona cr) = .ok (mg, obs, none) ∧
        (obs.ResourceUpToDate = true ↔ obs.Diff = "")) ∧
    (∀ (cr : PermissionSet) resp, cr.ExternalName ≠ "" →
      service.GetPermissionSet cr.ExternalName = .ok (resp, none) →
      ∃ mg obs, permissionset.Observe service (.permissionSet cr) = .ok (mg, obs, none) ∧
        (obs.ResourceUpToDate = true ↔ obs.Diff = "")) ∧
    (∀ (cr : Team) resp, cr.ExternalName ≠ "" →
      service.GetTeam cr.ExternalName = .ok (resp, none) →
      ∃ mg obs, team.Observe service (.team cr) = .ok (mg, obs, none) ∧
        (obs.ResourceUpToDate = true ↔ obs.Diff = "")) := by
  refine ⟨?_, ?_, ?_, ?_⟩
  · intro cr resp hx h
    simp only [user.Observe, usersvc.GetUser, hx, h, bind, Except.bind, if_false, ne_eq,
      not_true_eq_false]
    exact ⟨_, _, rfl, by rw [cmpEqual_eq_true_iff, cmpDiff_eq_empty_iff]⟩
  · intro cr resp hx h
    simp only [persona.Observe, personasvc.GetPersona, hx, h, bind, Except.bind, if_false, ne_eq,
      not_true_eq_false]
    exact ⟨_, _, rfl, by rw [cmpEqual_eq_true_iff, cmpDiff_eq_empty_iff]⟩
  · intro cr resp hx h
    simp only [permissionset.Observe, permissionset.postObserve, permissionsetsvc.GetPermissionSet, hx, h, bind, Except.bind, if_false, ne_eq,
      not_true_eq_false]
    exact ⟨_, _, rfl, by rw [cmpEqual_eq_true_iff, cmpDiff_eq_empty_iff]⟩
  · intro cr resp hx h
    simp only [team.Observe, teamsvc.GetTeam, hx, h, bind, Except.bind, if_false, ne_eq,
      not_true_eq_false]
    refine ⟨_, _, rfl, ?_⟩
    rw [Bool.and_eq_true, cmpEqual_eq_true_iff, cmpEqual_eq_true_iff, append_eq_empty_iff,
      cmpDiff_eq_empty_iff, cmpDiff_eq_empty_iff]

/-- Witness of C30: a team whose manager differs is not up to date and has a
non-empty diff. -/
theorem C30_up_to_date_iff_diff_is_empty_witness :
    ∃ mg obs, team.Observe (teamRepository "luigi" (some ["u-2"]) none)
        (.team (resourceWith "t-1" (teamParams "bowser" (some ["u-2"]) none))) =
        .ok (mg, obs, none) ∧
      (obs.ResourceUpToDate = true ↔ obs.Diff = "") :=
  (C30_up_to_date_iff_diff_is_empty (teamRepository "luigi" (some ["u-2"]) none)).2.2.2
    (resourceWith "t-1" (teamParams "bowser" (some ["u-2"]) none))
    { ManagedBy := "luigi", Members := some ["u-2"], Personas := none, NodeID := "t-1",
      Status := StatusAvailable }
    (by decide) rfl

end Powerbroker
